import Mathlib

/-!
# gossdb_client: the sorted-set (ZSet) operations of `zset.go`

A shallow embedding of the operations of `src/zset.go`.

* A Go `string` is a `String`, an `int64` is an `Int` (the code does no
  arithmetic on scores, only `strconv.ParseInt` produces them).
* A Go slice or map result is an `Option`: `none` is Go's `nil`, `some l` a
  non-nil slice (or map) holding `l`.
* `c.Client.Do` is the Transport: a function from the command name and the
  argument list to the reply tokens and a transport error.  Every operation
  returns, next to its Go results, the list of `Do` calls it issued.
* An index expression `resp[i]` is `resp[i]?`, and `none` there is Go's
  run-time panic (index out of range).
* `handError` (another file of the package), `to.Int64` (package
  `github.com/houbin910902/to`) and the rendering of `%v` operands by `fmt`
  are parameters, collected in `Env`.
-/

namespace Gossdb

/-! ## Values on the wire -/

/-- An element of a `[]interface{}` built by `MultiZSet`: a key or a score. -/
inductive Scalar where
  | str (s : String)
  | int (i : Int)
deriving DecidableEq, Repr

/-- A value passed as one `interface{}` argument to `Do`, `handError` or
`fmt.Errorf`. -/
inductive Arg where
  | str (s : String)
  | int (i : Int)
  | strs (l : List String)
  | anys (l : Option (List Scalar))
  | kvs (m : List (String × Int))
deriving DecidableEq, Repr

/-- One invocation `Do(cmd, args...)` of the Transport. -/
structure Call where
  cmd : String
  args : List Arg
deriving DecidableEq, Repr

/-- The two sentinel errors of `strconv`. -/
inductive NumErr where
  | ErrSyntax
  | ErrRange
deriving DecidableEq, Repr

/-- A non-nil Go `error` value: the result of `fmt.Errorf` (its message), a
`*strconv.NumError` of `ParseInt` (the text parsed and the reason), or any
other error value, which only `handError` can produce here. -/
inductive GoError where
  | errorf (msg : String)
  | numError (num : String) (err : NumErr)
  | other (kind : String) (msg : String)
deriving DecidableEq, Repr

/-- The receiver `c *DbClient`: its field `Client`, of which the code uses
`Do` only.  `Do cmd args` is the reply `(resp, err)`, where `err` is the
transport error's message (`err.Error()`) and `none` is `nil`. -/
structure DbClient where
  Do : String → List Arg → List String × Option String

/-- What the package takes from outside `zset.go`. -/
structure Env where
  /-- The function `handError(resp, args...)` of the package; `none` is a nil error. -/
  handError : List String → List Arg → Option GoError
  /-- The function `to.Int64` applied to a reply token. -/
  toInt64 : String → Int
  /-- The text `fmt` prints for an operand of a `%v` or `%s` verb that is not a
  plain string or `int64`. -/
  sprint : Arg → String

/-- The result of running one operation. -/
inductive Outcome (α : Type) where
  /-- The function returned `val` and `err`, having issued `calls`. -/
  | ret (val : α) (err : Option GoError) (calls : List Call)
  /-- An index expression was out of range: the goroutine panics. -/
  | panic (calls : List Call)
  /-- The bound given to a loop of the model was too small (never the case,
  see `forLoop_ne_fuel`). -/
  | stuck
deriving DecidableEq, Repr

/-- The `Do` calls an operation issued. -/
def Outcome.calls {α : Type} : Outcome α → List Call
  | .ret _ _ calls => calls
  | .panic calls => calls
  | .stuck => []

/-- The error result of an operation that returned. -/
def Outcome.err? {α : Type} : Outcome α → Option (Option GoError)
  | .ret _ err _ => some err
  | _ => none

/-- The value result of an operation that returned. -/
def Outcome.val? {α : Type} : Outcome α → Option α
  | .ret val _ _ => some val
  | _ => none

/-! ## `strconv.ParseInt(s, 10, 64)` -/

/-- The largest `uint64`. -/
def maxUint64 : Nat := 2 ^ 64 - 1

/-- The digit value `ParseUint` gives a byte, `none` in its `default` case. -/
def digitVal (c : Nat) : Option Nat :=
  if 48 ≤ c ∧ c ≤ 57 then some (c - 48)
  else if 97 ≤ (c ||| 32) ∧ (c ||| 32) ≤ 122 then some ((c ||| 32) - 97 + 10)
  else none

/-- The loop of `strconv.ParseUint` for base 10 and 64 bits over the
remaining characters, `n` the value so far.  A character outside ASCII is
several bytes, each at least 128, and the first of them ends the loop in
the `default` case as the character does here. -/
def ParseUint.loop : List Char → Nat → Nat × Option NumErr
  | [], n => (n, none)
  | c :: cs, n =>
    match digitVal c.toNat with
    | none => (0, some .ErrSyntax)
    | some d =>
      if d ≥ 10 then (0, some .ErrSyntax)
      else if n ≥ maxUint64 / 10 + 1 then (maxUint64, some .ErrRange)
      else
        let n10 := (n * 10) % 2 ^ 64
        let n1 := (n10 + d) % 2 ^ 64
        if n1 < n10 ∨ n1 > maxUint64 then (maxUint64, some .ErrRange)
        else ParseUint.loop cs n1

/-- The function `strconv.ParseUint(s, 10, 64)` on the characters of `s`. -/
def ParseUint (s : List Char) : Nat × Option NumErr :=
  if s = [] then (0, some .ErrSyntax) else ParseUint.loop s 0

/-- The conversion `int64(x)` of a `uint64`, and the wrap-around of `int64`
arithmetic. -/
def wrapInt64 (z : Int) : Int := (z + 2 ^ 63) % 2 ^ 64 - 2 ^ 63

/-- The function `strconv.ParseInt(s, 10, 64)`: the value and the error
(`none` is nil). -/
def ParseInt (s : String) : Int × Option GoError :=
  match s.data with
  | [] => (0, some (.numError s .ErrSyntax))
  | c :: cs =>
    let neg := c = '-'
    let rest := if c = '+' then cs else if c = '-' then cs else c :: cs
    match ParseUint rest with
    | (_, some .ErrSyntax) => (0, some (.numError s .ErrSyntax))
    | (un, _) =>
      if ¬ neg ∧ un ≥ 2 ^ 63 then (2 ^ 63 - 1, some (.numError s .ErrRange))
      else if neg ∧ un > 2 ^ 63 then (-(2 ^ 63), some (.numError s .ErrRange))
      else
        let n := wrapInt64 un
        (if neg then wrapInt64 (-n) else n, none)

/-! ## Loops, slices and maps -/

/-- The result of running a loop of the model. -/
inductive Loop (σ : Type) where
  | done (st : σ)
  | panic
  | fuel
deriving DecidableEq, Repr

/-- A Go loop `for i := i0; cond(i); i = post(i) { body }` over the state
`st` of the variables the body assigns; `body` is `none` when it panics.
The first argument bounds the number of iterations. -/
def forLoop {σ : Type} (cond : Nat → Bool) (post : Nat → Nat) (body : Nat → σ → Option σ) :
    Nat → Nat → σ → Loop σ
  | 0, i, st => if cond i then .fuel else .done st
  | fuel + 1, i, st =>
    if cond i then
      match body i st with
      | none => .panic
      | some st' => forLoop cond post body fuel (post i) st'
    else .done st

/-- The assignment `m[k] = v` on a map held as the list of its entries. -/
def mapSet (m : List (String × Int)) (k : String) (v : Int) : List (String × Int) :=
  match m with
  | [] => [(k, v)]
  | (k', v') :: rest => if k' = k then (k, v) :: rest else (k', v') :: mapSet rest k v

/-- The lookup `m[k]` with its presence flag. -/
def mapGet (m : List (String × Int)) (k : String) : Option Int :=
  match m with
  | [] => none
  | (k', v') :: rest => if k' = k then some v' else mapGet rest k

/-- Go's `append(s, x)`: a nil slice is an empty one, the result is never nil. -/
def goAppend {α : Type} (s : Option (List α)) (x : α) : Option (List α) :=
  some (s.getD [] ++ [x])

/-- Go's `len(s)` of a slice. -/
def goLen {α : Type} (s : Option (List α)) : Nat := (s.getD []).length

/-! ## The operations of `zset.go` -/

/-- The guard `len(resp) > 0 && resp[0] == "ok"`. -/
def isOk (resp : List String) : Bool :=
  decide (resp.length > 0) && decide (resp[0]? = some "ok")

/-- Source: `func (c *DbClient) ZSet`, zset.go 14-23. -/
def ZSet (env : Env) (c : DbClient) (setName key : String) (score : Int) : Outcome Unit :=
  let args := [Arg.str setName, Arg.str key, Arg.int score]
  match c.Do "zset" args with
  | (_, some err) =>
    .ret () (some (.errorf ("ZSet " ++ setName ++ " " ++ key ++ " error: " ++ err)))
      [⟨"zset", args⟩]
  | (resp, none) =>
    if isOk resp then .ret () none [⟨"zset", args⟩]
    else .ret () (env.handError resp [Arg.str setName, Arg.str key]) [⟨"zset", args⟩]

/-- Source: `func (c *DbClient) ZGet`, zset.go 32-41. -/
def ZGet (env : Env) (c : DbClient) (setName key : String) : Outcome Int :=
  let args := [Arg.str setName, Arg.str key]
  match c.Do "zget" args with
  | (_, some err) =>
    .ret 0 (some (.errorf ("ZGet " ++ setName ++ "/" ++ key ++ " error: " ++ err)))
      [⟨"zget", args⟩]
  | (resp, none) =>
    if resp.length = 2 ∧ resp[0]? = some "ok" then
      match resp[1]? with
      | none => .panic [⟨"zget", args⟩]
      | some t => .ret (ParseInt t).1 (ParseInt t).2 [⟨"zget", args⟩]
    else .ret 0 (env.handError resp [Arg.str setName, Arg.str key]) [⟨"zget", args⟩]

/-- Source: `func (c *DbClient) ZDel`, zset.go 48-57. -/
def ZDel (env : Env) (c : DbClient) (setName key : String) : Outcome Unit :=
  let args := [Arg.str setName, Arg.str key]
  match c.Do "zdel" args with
  | (_, some err) =>
    .ret () (some (.errorf ("ZDel " ++ setName ++ "/" ++ key ++ " error: " ++ err)))
      [⟨"zdel", args⟩]
  | (resp, none) =>
    if isOk resp then .ret () none [⟨"zdel", args⟩]
    else .ret () (env.handError resp [Arg.str setName, Arg.str key]) [⟨"zdel", args⟩]

/-- Source: `func (c *DbClient) ZExists`, zset.go 64-74. -/
def ZExists (env : Env) (c : DbClient) (setName key : String) : Outcome Bool :=
  let args := [Arg.str setName, Arg.str key]
  match c.Do "zexists" args with
  | (_, some err) =>
    .ret false (some (.errorf ("ZExists " ++ setName ++ "/" ++ key ++ " error: " ++ err)))
      [⟨"zexists", args⟩]
  | (resp, none) =>
    if resp.length = 2 ∧ resp[0]? = some "ok" then
      match resp[1]? with
      | none => .panic [⟨"zexists", args⟩]
      | some t => .ret (decide (t = "1")) none [⟨"zexists", args⟩]
    else .ret false (env.handError resp [Arg.str setName, Arg.str key]) [⟨"zexists", args⟩]

/-- Source: `func (c *DbClient) ZCount`, zset.go 82-92. -/
def ZCount (env : Env) (c : DbClient) (setName : String) (start «end» : Arg) : Outcome Int :=
  let args := [Arg.str setName, start, «end»]
  match c.Do "zcount" args with
  | (_, some err) =>
    .ret (-1) (some (.errorf ("ZCount " ++ setName ++ " " ++ env.sprint start ++ " " ++
      env.sprint «end» ++ " error: " ++ err))) [⟨"zcount", args⟩]
  | (resp, none) =>
    if resp.length = 2 ∧ resp[0]? = some "ok" then
      match resp[1]? with
      | none => .panic [⟨"zcount", args⟩]
      | some t => .ret (ParseInt t).1 (ParseInt t).2 [⟨"zcount", args⟩]
    else .ret (-1) (env.handError resp [Arg.str setName]) [⟨"zcount", args⟩]

/-- Source: `func (c *DbClient) ZClear`, zset.go 97-107. -/
def ZClear (env : Env) (c : DbClient) (setName : String) : Outcome Unit :=
  let args := [Arg.str setName]
  match c.Do "zclear" args with
  | (_, some err) =>
    .ret () (some (.errorf (err ++ " ZClear " ++ setName ++ " error: " ++ err)))
      [⟨"zclear", args⟩]
  | (resp, none) =>
    if isOk resp then .ret () none [⟨"zclear", args⟩]
    else .ret () (env.handError resp [Arg.str setName]) [⟨"zclear", args⟩]

/-- The loop body of `ZScan` and `ZrScan` (zset.go 133-137 and 164-168): the
key is `resp[i]`, the score is parsed from `resp[1]`. -/
def scanBody (resp : List String) (i : Nat) (st : List String × List Int) :
    Option (List String × List Int) :=
  match resp[i]?, resp[1]? with
  | some k, some t => some (st.1 ++ [k], st.2 ++ [(ParseInt t).1])
  | _, _ => none

/-- Source: `func (c *DbClient) ZScan`, zset.go 122-141. -/
def ZScan (env : Env) (c : DbClient) (setName keyStart : String) (scoreStart scoreEnd : Arg)
    (limit : Int) : Outcome (Option (List String) × Option (List Int)) :=
  let args := [Arg.str setName, Arg.str keyStart, scoreStart, scoreEnd, Arg.int limit]
  match c.Do "zscan" args with
  | (_, some err) =>
    .ret (none, none) (some (.errorf ("ZScan " ++ setName ++ " " ++ keyStart ++ " " ++
      env.sprint scoreStart ++ " " ++ env.sprint scoreEnd ++ " " ++ toString limit ++
      " error: " ++ err))) [⟨"zscan", args⟩]
  | (resp, none) =>
    if isOk resp then
      let size := resp.length
      match forLoop (fun i => decide (i < size - 1)) (fun i => i + 2) (scanBody resp)
          size 1 ([], []) with
      | .done st => .ret (some st.1, some st.2) none [⟨"zscan", args⟩]
      | .panic => .panic [⟨"zscan", args⟩]
      | .fuel => .stuck
    else
      .ret (none, none)
        (env.handError resp [Arg.str setName, Arg.str keyStart, scoreStart, scoreEnd, Arg.int limit])
        [⟨"zscan", args⟩]

/-- Source: `func (c *DbClient) ZrScan`, zset.go 152-172. -/
def ZrScan (env : Env) (c : DbClient) (setName keyStart : String) (scoreStart scoreEnd : Arg)
    (limit : Int) : Outcome (Option (List String) × Option (List Int)) :=
  let args := [Arg.str setName, Arg.str keyStart, scoreStart, scoreEnd, Arg.int limit]
  match c.Do "zrscan" args with
  | (_, some err) =>
    .ret (none, none) (some (.errorf ("ZrScan " ++ setName ++ " " ++ keyStart ++ " " ++
      env.sprint scoreStart ++ " " ++ env.sprint scoreEnd ++ " " ++ toString limit ++
      " error: " ++ err))) [⟨"zrscan", args⟩]
  | (resp, none) =>
    if isOk resp then
      let size := resp.length
      match forLoop (fun i => decide (i < size - 1)) (fun i => i + 2) (scanBody resp)
          size 1 ([], []) with
      | .done st => .ret (some st.1, some st.2) none [⟨"zrscan", args⟩]
      | .panic => .panic [⟨"zrscan", args⟩]
      | .fuel => .stuck
    else
      .ret (none, none)
        (env.handError resp [Arg.str setName, Arg.str keyStart, scoreStart, scoreEnd, Arg.int limit])
        [⟨"zrscan", args⟩]

/-- The loop `for k, v := range kvs` of `MultiZSet` (zset.go 181-185) over the
entries of the map in the order the iteration visits them. -/
def flattenKvs (kvs : List (String × Int)) : Option (List Scalar) :=
  kvs.foldl (fun args kv => goAppend (goAppend args (Scalar.str kv.1)) (Scalar.int kv.2)) none

/-- Source: `func (c *DbClient) MultiZSet`, zset.go 179-196.  The map `kvs` is
the list of its entries in the order `range` visits them. -/
def MultiZSet (env : Env) (c : DbClient) (setName : String) (kvs : List (String × Int)) :
    Outcome Unit :=
  let args := [Arg.str setName, Arg.anys (flattenKvs kvs)]
  match c.Do "multi_zset" args with
  | (_, some err) =>
    .ret () (some (.errorf ("MultiZset " ++ setName ++ " " ++ env.sprint (Arg.kvs kvs) ++
      " error: " ++ err))) [⟨"multi_zset", args⟩]
  | (resp, none) =>
    if isOk resp then .ret () none [⟨"multi_zset", args⟩]
    else .ret () (env.handError resp [Arg.str setName, Arg.kvs kvs]) [⟨"multi_zset", args⟩]

/-- The loop body of `MultiZGet` (zset.go 217-218): `val[resp[i]] = sco` with
`sco` parsed from `resp[i+1]` by `strconv.ParseInt`, its error dropped. -/
def multiZGetBody (resp : List String) (i : Nat) (val : List (String × Int)) :
    Option (List (String × Int)) :=
  match resp[i + 1]?, resp[i]? with
  | some t, some k => some (mapSet val k (ParseInt t).1)
  | _, _ => none

/-- The loop body `val[resp[i]] = to.Int64(resp[i+1])` of the other map
decoders (zset.go 275, 522, 573, 656, 678). -/
def mapBody (env : Env) (resp : List String) (i : Nat) (val : List (String × Int)) :
    Option (List (String × Int)) :=
  match resp[i]?, resp[i + 1]? with
  | some k, some t => some (mapSet val k (env.toInt64 t))
  | _, _ => none

/-- The loop body `keys = append(keys, resp[i])` and
`scores = append(scores, to.Int64(resp[i+1]))` of the slice decoders
(zset.go 249-250, 306-307, 547-548, 599-600). -/
def sliceBody (env : Env) (resp : List String) (i : Nat) (st : List String × List Int) :
    Option (List String × List Int) :=
  match resp[i]?, resp[i + 1]? with
  | some k, some t => some (st.1 ++ [k], st.2 ++ [env.toInt64 t])
  | _, _ => none

/-- Source: `func (c *DbClient) MultiZGet`, zset.go 204-223.  The variadic
`key ...string` is the list of the keys given. -/
def MultiZGet (env : Env) (c : DbClient) (setName : String) (key : List String) :
    Outcome (Option (List (String × Int))) :=
  if key.length = 0 then .ret (some []) none []
  else
    let args := [Arg.str setName, Arg.strs key]
    match c.Do "multi_zget" args with
    | (_, some err) =>
      .ret none (some (.errorf ("MultiZget " ++ setName ++ " " ++ env.sprint (Arg.strs key) ++
        " error: " ++ err)))
        [⟨"multi_zget", args⟩]
    | (resp, none) =>
      let size := resp.length
      if isOk resp then
        match forLoop (fun i => decide (i < size) && decide (i + 1 < size))
            (fun i => i + 2) (multiZGetBody resp) size 1 [] with
        | .done val => .ret (some val) none [⟨"multi_zget", args⟩]
        | .panic => .panic [⟨"multi_zget", args⟩]
        | .fuel => .stuck
      else .ret none (env.handError resp [Arg.strs key]) [⟨"multi_zget", args⟩]

/-- Source: `func (c *DbClient) MultiZGetSlice`, zset.go 232-255.  The slices
are made with `make([]string, (size-1)/2)` and `make([]int64, (size-1)/2)`: of
that length, holding zero values. -/
def MultiZGetSlice (env : Env) (c : DbClient) (setName : String) (key : List String) :
    Outcome (Option (List String) × Option (List Int)) :=
  if key.length = 0 then .ret (some [], some []) none []
  else
    let args := [Arg.str setName, Arg.strs key]
    match c.Do "multi_zget" args with
    | (_, some err) =>
      .ret (none, none) (some (.errorf ("MultiZGetSlice " ++ setName ++ " " ++ env.sprint (Arg.strs key) ++
        " error: " ++ err)))
        [⟨"multi_zget", args⟩]
    | (resp, none) =>
      let size := resp.length
      if isOk resp then
        match forLoop (fun i => decide (i < size) && decide (i + 1 < size))
            (fun i => i + 2) (sliceBody env resp) size 1
            (List.replicate ((size - 1) / 2) "", List.replicate ((size - 1) / 2) 0) with
        | .done st => .ret (some st.1, some st.2) none [⟨"multi_zget", args⟩]
        | .panic => .panic [⟨"multi_zget", args⟩]
        | .fuel => .stuck
      else .ret (none, none)
        (env.handError resp [Arg.str setName, Arg.strs key]) [⟨"multi_zget", args⟩]

/-- Source: `func (c *DbClient) MultiZGetArray`, zset.go 262-280. -/
def MultiZGetArray (env : Env) (c : DbClient) (setName : String) (key : List String) :
    Outcome (Option (List (String × Int))) :=
  if key.length = 0 then .ret (some []) none []
  else
    let args := [Arg.str setName, Arg.strs key]
    match c.Do "multi_zget" args with
    | (_, some err) =>
      .ret none (some (.errorf ("MultiZGetArray " ++ setName ++ " " ++ env.sprint (Arg.strs key) ++
        " error: " ++ err)))
        [⟨"multi_zget", args⟩]
    | (resp, none) =>
      let size := resp.length
      if isOk resp then
        match forLoop (fun i => decide (i < size) && decide (i + 1 < size))
            (fun i => i + 2) (mapBody env resp) size 1 [] with
        | .done val => .ret (some val) none [⟨"multi_zget", args⟩]
        | .panic => .panic [⟨"multi_zget", args⟩]
        | .fuel => .stuck
      else .ret none (env.handError resp [Arg.strs key]) [⟨"multi_zget", args⟩]

/-- Source: `func (c *DbClient) MultiZGetSliceArray`, zset.go 289-312. -/
def MultiZGetSliceArray (env : Env) (c : DbClient) (setName : String) (key : List String) :
    Outcome (Option (List String) × Option (List Int)) :=
  if key.length = 0 then .ret (some [], some []) none []
  else
    let args := [Arg.str setName, Arg.strs key]
    match c.Do "multi_zget" args with
    | (_, some err) =>
      .ret (none, none) (some (.errorf ("MultiZGetSliceArray " ++ setName ++ " " ++ env.sprint (Arg.strs key) ++
        " error: " ++ err)))
        [⟨"multi_zget", args⟩]
    | (resp, none) =>
      let size := resp.length
      if isOk resp then
        match forLoop (fun i => decide (i < size) && decide (i + 1 < size))
            (fun i => i + 2) (sliceBody env resp) size 1
            (List.replicate ((size - 1) / 2) "", List.replicate ((size - 1) / 2) 0) with
        | .done st => .ret (some st.1, some st.2) none [⟨"multi_zget", args⟩]
        | .panic => .panic [⟨"multi_zget", args⟩]
        | .fuel => .stuck
      else .ret (none, none)
        (env.handError resp [Arg.str setName, Arg.strs key]) [⟨"multi_zget", args⟩]

/-- Source: `func (c *DbClient) MultiZDel`, zset.go 320-334. -/
def MultiZDel (env : Env) (c : DbClient) (setName : String) (key : List String) : Outcome Unit :=
  if key.length = 0 then .ret () none []
  else
    let args := [Arg.strs key]
    match c.Do "multi_zdel" args with
    | (_, some err) =>
      .ret () (some (.errorf ("MultiZDel " ++ setName ++ " " ++ env.sprint (Arg.strs key) ++
        " error: " ++ err))) [⟨"multi_zdel", args⟩]
    | (resp, none) =>
      if isOk resp then .ret () none [⟨"multi_zdel", args⟩]
      else .ret () (env.handError resp [Arg.str setName, Arg.strs key]) [⟨"multi_zdel", args⟩]

/-- Source: `func (c *DbClient) ZIncR`, zset.go 343-356. -/
def ZIncR (env : Env) (c : DbClient) (setName key : String) (num : Int) : Outcome Int :=
  if key.length = 0 then .ret 0 none []
  else
    let args := [Arg.str setName, Arg.str key, Arg.int num]
    match c.Do "zincr" args with
    | (_, some err) =>
      .ret 0 (some (.errorf ("ZIncR " ++ setName ++ " " ++ key ++ " " ++ toString num ++
        " error: " ++ err))) [⟨"zincr", args⟩]
    | (resp, none) =>
      if resp.length > 1 ∧ resp[0]? = some "ok" then
        match resp[1]? with
        | none => .panic [⟨"zincr", args⟩]
        | some t => .ret (env.toInt64 t) none [⟨"zincr", args⟩]
      else .ret 0 (env.handError resp [Arg.str setName, Arg.str key]) [⟨"zincr", args⟩]

/-- The loop body `keys = append(keys, resp[i])` of `ZList` and `ZKeys`
(zset.go 375 and 421). -/
def keysBody (resp : List String) (i : Nat) (keys : List String) : Option (List String) :=
  match resp[i]? with
  | some k => some (keys ++ [k])
  | none => none

/-- Source: `func (c *DbClient) ZList`, zset.go 365-380. -/
def ZList (env : Env) (c : DbClient) (nameStart nameEnd : String) (limit : Int) :
    Outcome (Option (List String)) :=
  let args := [Arg.str nameStart, Arg.str nameEnd, Arg.int limit]
  match c.Do "zlist" args with
  | (_, some err) =>
    .ret none (some (.errorf ("ZList " ++ nameStart ++ " " ++ nameEnd ++ " " ++ toString limit ++
      " error: " ++ err))) [⟨"zlist", args⟩]
  | (resp, none) =>
    if isOk resp then
      let size := resp.length
      match forLoop (fun i => decide (i < size)) (fun i => i + 1) (keysBody resp) size 1 [] with
      | .done keyList => .ret (some keyList) none [⟨"zlist", args⟩]
      | .panic => .panic [⟨"zlist", args⟩]
      | .fuel => .stuck
    else
      .ret none (env.handError resp [Arg.str nameStart, Arg.str nameEnd, Arg.int limit])
        [⟨"zlist", args⟩]

/-- Source: `func (c *DbClient) ZSize`, zset.go 387-398. -/
def ZSize (env : Env) (c : DbClient) (name : String) : Outcome Int :=
  let args := [Arg.str name]
  match c.Do "zsize" args with
  | (_, some err) =>
    .ret 0 (some (.errorf ("ZSize " ++ name ++ "  error: " ++ err))) [⟨"zsize", args⟩]
  | (resp, none) =>
    if isOk resp then
      match resp[1]? with
      | none => .panic [⟨"zsize", args⟩]
      | some t => .ret (env.toInt64 t) none [⟨"zsize", args⟩]
    else .ret 0 (env.handError resp [Arg.str name]) [⟨"zsize", args⟩]

/-- Source: `func (c *DbClient) ZKeys`, zset.go 410-426. -/
def ZKeys (env : Env) (c : DbClient) (setName keyStart : String) (scoreStart scoreEnd : Arg)
    (limit : Int) : Outcome (Option (List String)) :=
  let args := [Arg.str setName, Arg.str keyStart, scoreStart, scoreEnd, Arg.int limit]
  match c.Do "zkeys" args with
  | (_, some err) =>
    .ret none (some (.errorf ("ZKeys " ++ setName ++ " " ++ keyStart ++ " " ++
      env.sprint scoreStart ++ " " ++ env.sprint scoreEnd ++ " " ++ toString limit ++
      " error: " ++ err))) [⟨"zkeys", args⟩]
  | (resp, none) =>
    if isOk resp then
      let size := resp.length
      match forLoop (fun i => decide (i < size)) (fun i => i + 1) (keysBody resp) size 1 [] with
      | .done keys => .ret (some keys) none [⟨"zkeys", args⟩]
      | .panic => .panic [⟨"zkeys", args⟩]
      | .fuel => .stuck
    else
      .ret none
        (env.handError resp [Arg.str setName, Arg.str keyStart, scoreStart, scoreEnd, Arg.int limit])
        [⟨"zkeys", args⟩]

/-- Source: `func (c *DbClient) ZSum`, zset.go 434-445. -/
def ZSum (env : Env) (c : DbClient) (setName : String) (scoreStart scoreEnd : Arg) : Outcome Int :=
  let args := [Arg.str setName, scoreStart, scoreEnd]
  match c.Do "zsum" args with
  | (_, some err) =>
    .ret 0 (some (.errorf ("ZSum " ++ setName ++ " " ++ env.sprint scoreStart ++ " " ++
      env.sprint scoreEnd ++ "  error: " ++ err))) [⟨"zsum", args⟩]
  | (resp, none) =>
    if isOk resp then
      match resp[1]? with
      | none => .panic [⟨"zsum", args⟩]
      | some t => .ret (env.toInt64 t) none [⟨"zsum", args⟩]
    else .ret 0 (env.handError resp [Arg.str setName, scoreStart, scoreEnd]) [⟨"zsum", args⟩]

/-- Source: `func (c *DbClient) ZAvg`, zset.go 454-465. -/
def ZAvg (env : Env) (c : DbClient) (setName : String) (scoreStart scoreEnd : Arg) : Outcome Int :=
  let args := [Arg.str setName, scoreStart, scoreEnd]
  match c.Do "zavg" args with
  | (_, some err) =>
    .ret 0 (some (.errorf ("ZAvg " ++ setName ++ " " ++ env.sprint scoreStart ++ " " ++
      env.sprint scoreEnd ++ "  error: " ++ err))) [⟨"zavg", args⟩]
  | (resp, none) =>
    if isOk resp then
      match resp[1]? with
      | none => .panic [⟨"zavg", args⟩]
      | some t => .ret (env.toInt64 t) none [⟨"zavg", args⟩]
    else .ret 0 (env.handError resp [Arg.str setName, scoreStart, scoreEnd]) [⟨"zavg", args⟩]

/-- Source: `func (c *DbClient) ZRank`, zset.go 473-484. -/
def ZRank (env : Env) (c : DbClient) (setName key : String) : Outcome Int :=
  let args := [Arg.str setName, Arg.str key]
  match c.Do "zrank" args with
  | (_, some err) =>
    .ret 0 (some (.errorf ("ZRank " ++ setName ++ " " ++ key ++ "  error: " ++ err))) [⟨"zrank", args⟩]
  | (resp, none) =>
    if isOk resp then
      match resp[1]? with
      | none => .panic [⟨"zrank", args⟩]
      | some t => .ret (env.toInt64 t) none [⟨"zrank", args⟩]
    else .ret 0 (env.handError resp [Arg.str setName, Arg.str key]) [⟨"zrank", args⟩]

/-- Source: `func (c *DbClient) ZRRank`, zset.go 492-503. -/
def ZRRank (env : Env) (c : DbClient) (setName key : String) : Outcome Int :=
  let args := [Arg.str setName, Arg.str key]
  match c.Do "zrrank" args with
  | (_, some err) =>
    .ret 0 (some (.errorf ("ZRRank " ++ setName ++ " " ++ key ++ "  error: " ++ err))) [⟨"zrrank", args⟩]
  | (resp, none) =>
    if isOk resp then
      match resp[1]? with
      | none => .panic [⟨"zrrank", args⟩]
      | some t => .ret (env.toInt64 t) none [⟨"zrrank", args⟩]
    else .ret 0 (env.handError resp [Arg.str setName, Arg.str key]) [⟨"zrrank", args⟩]

/-- Source: `func (c *DbClient) ZRange`, zset.go 512-527. -/
def ZRange (env : Env) (c : DbClient) (setName : String) (offset limit : Int) :
    Outcome (Option (List (String × Int))) :=
  let args := [Arg.str setName, Arg.int offset, Arg.int limit]
  match c.Do "zrange" args with
  | (_, some err) =>
    .ret none (some (.errorf ("ZRange " ++ setName ++ " " ++ toString offset ++ " " ++
        toString limit ++ "  error: " ++ err))) [⟨"zrange", args⟩]
  | (resp, none) =>
    let size := resp.length
    if isOk resp then
      match forLoop (fun i => decide (i < size - 1))
          (fun i => i + 2) (mapBody env resp) size 1 [] with
      | .done val => .ret (some val) none [⟨"zrange", args⟩]
      | .panic => .panic [⟨"zrange", args⟩]
      | .fuel => .stuck
    else .ret none
      (env.handError resp [Arg.str setName, Arg.int offset, Arg.int limit]) [⟨"zrange", args⟩]

/-- Source: `func (c *DbClient) ZRangeSlice`, zset.go 536-553. -/
def ZRangeSlice (env : Env) (c : DbClient) (setName : String) (offset limit : Int) :
    Outcome (Option (List String) × Option (List Int)) :=
  let args := [Arg.str setName, Arg.int offset, Arg.int limit]
  match c.Do "zrange" args with
  | (_, some err) =>
    .ret (none, none) (some (.errorf ("ZRangeSlice " ++ setName ++ " " ++ toString offset ++ " " ++
        toString limit ++ "  error: " ++ err))) [⟨"zrange", args⟩]
  | (resp, none) =>
    let size := resp.length
    if isOk resp then
      match forLoop (fun i => decide (i < size - 1)) (fun i => i + 2) (sliceBody env resp) size 1
          ([], []) with
      | .done st => .ret (some st.1, some st.2) none [⟨"zrange", args⟩]
      | .panic => .panic [⟨"zrange", args⟩]
      | .fuel => .stuck
    else .ret (none, none)
      (env.handError resp [Arg.str setName, Arg.int offset, Arg.int limit]) [⟨"zrange", args⟩]

/-- Source: `func (c *DbClient) ZRRange`, zset.go 562-578. -/
def ZRRange (env : Env) (c : DbClient) (setName : String) (offset limit : Int) :
    Outcome (Option (List (String × Int))) :=
  let args := [Arg.str setName, Arg.int offset, Arg.int limit]
  match c.Do "zrrange" args with
  | (_, some err) =>
    .ret none (some (.errorf ("ZRRange " ++ setName ++ " " ++ toString offset ++ " " ++
        toString limit ++ " error: " ++ err))) [⟨"zrrange", args⟩]
  | (resp, none) =>
    let size := resp.length
    if isOk resp then
      match forLoop (fun i => decide (i < size - 1))
          (fun i => i + 2) (mapBody env resp) size 1 [] with
      | .done val => .ret (some val) none [⟨"zrrange", args⟩]
      | .panic => .panic [⟨"zrrange", args⟩]
      | .fuel => .stuck
    else .ret none
      (env.handError resp [Arg.str setName, Arg.int offset, Arg.int limit]) [⟨"zrrange", args⟩]

/-- Source: `func (c *DbClient) ZRRangeSlice`, zset.go 587-605. -/
def ZRRangeSlice (env : Env) (c : DbClient) (setName : String) (offset limit : Int) :
    Outcome (Option (List String) × Option (List Int)) :=
  let args := [Arg.str setName, Arg.int offset, Arg.int limit]
  match c.Do "zrrange" args with
  | (_, some err) =>
    .ret (none, none) (some (.errorf ("ZRRangeSlice " ++ setName ++ " " ++ toString offset ++ " " ++
        toString limit ++ " error: " ++ err))) [⟨"zrrange", args⟩]
  | (resp, none) =>
    let size := resp.length
    if isOk resp then
      match forLoop (fun i => decide (i < size - 1)) (fun i => i + 2) (sliceBody env resp) size 1
          ([], []) with
      | .done st => .ret (some st.1, some st.2) none [⟨"zrrange", args⟩]
      | .panic => .panic [⟨"zrrange", args⟩]
      | .fuel => .stuck
    else .ret (none, none)
      (env.handError resp [Arg.str setName, Arg.int offset, Arg.int limit]) [⟨"zrrange", args⟩]

/-- Source: `func (c *DbClient) ZRemRangeByRank`, zset.go 612-622. -/
def ZRemRangeByRank (env : Env) (c : DbClient) (setName : String) (start «end» : Int) : Outcome Unit :=
  let args := [Arg.str setName, Arg.int start, Arg.int «end»]
  match c.Do "zremrangebyrank" args with
  | (_, some err) =>
    .ret () (some (.errorf ("ZRemRangeByRank " ++ setName ++ " " ++ toString start ++ " " ++
      toString «end» ++ " error: " ++ err))) [⟨"zremrangebyrank", args⟩]
  | (resp, none) =>
    if isOk resp then .ret () none [⟨"zremrangebyrank", args⟩]
    else .ret ()
      (env.handError resp [Arg.str setName, Arg.int start, Arg.int «end»]) [⟨"zremrangebyrank", args⟩]

/-- Source: `func (c *DbClient) ZRemRangeByScore`, zset.go 629-639. -/
def ZRemRangeByScore (env : Env) (c : DbClient) (setName : String) (start «end» : Int) : Outcome Unit :=
  let args := [Arg.str setName, Arg.int start, Arg.int «end»]
  match c.Do "zremrangebyscore" args with
  | (_, some err) =>
    .ret () (some (.errorf ("ZRemRangeByScore " ++ setName ++ " " ++ toString start ++ " " ++
      toString «end» ++ "  error: " ++ err))) [⟨"zremrangebyscore", args⟩]
  | (resp, none) =>
    if isOk resp then .ret () none [⟨"zremrangebyscore", args⟩]
    else .ret ()
      (env.handError resp [Arg.str setName, Arg.int start, Arg.int «end»]) [⟨"zremrangebyscore", args⟩]

/-- Source: `func (c *DbClient) ZPopFront`, zset.go 646-661. -/
def ZPopFront (env : Env) (c : DbClient) (setName : String) (limit : Int) :
    Outcome (Option (List (String × Int))) :=
  let args := [Arg.str setName, Arg.int limit]
  match c.Do "zpop_front" args with
  | (_, some err) =>
    .ret none (some (.errorf ("ZPopFront " ++ setName ++ " " ++ toString limit ++ "  error: " ++ err))) [⟨"zpop_front", args⟩]
  | (resp, none) =>
    let size := resp.length
    if isOk resp then
      match forLoop (fun i => decide (i < size) && decide (i + 1 < size))
          (fun i => i + 2) (mapBody env resp) size 1 [] with
      | .done val => .ret (some val) none [⟨"zpop_front", args⟩]
      | .panic => .panic [⟨"zpop_front", args⟩]
      | .fuel => .stuck
    else .ret none (env.handError resp [Arg.str setName, Arg.int limit]) [⟨"zpop_front", args⟩]

/-- Source: `func (c *DbClient) ZPopBack`, zset.go 668-683. -/
def ZPopBack (env : Env) (c : DbClient) (setName : String) (limit : Int) :
    Outcome (Option (List (String × Int))) :=
  let args := [Arg.str setName, Arg.int limit]
  match c.Do "zpop_back" args with
  | (_, some err) =>
    .ret none (some (.errorf ("ZPopBack " ++ setName ++ " " ++ toString limit ++ "  error: " ++ err))) [⟨"zpop_back", args⟩]
  | (resp, none) =>
    let size := resp.length
    if isOk resp then
      match forLoop (fun i => decide (i < size) && decide (i + 1 < size))
          (fun i => i + 2) (mapBody env resp) size 1 [] with
      | .done val => .ret (some val) none [⟨"zpop_back", args⟩]
      | .panic => .panic [⟨"zpop_back", args⟩]
      | .fuel => .stuck
    else .ret none (env.handError resp [Arg.str setName, Arg.int limit]) [⟨"zpop_back", args⟩]

/-! ## All operations at once -/

/-- The Go results of an operation, its error apart. -/
inductive Value where
  /-- An operation that returns an error only. -/
  | unit
  | int (v : Int)
  | bool (b : Bool)
  | keys (l : Option (List String))
  | pairs (keys : Option (List String)) (scores : Option (List Int))
  | map (m : Option (List (String × Int)))
deriving DecidableEq, Repr

/-- The outcome with its value converted. -/
def Outcome.map {α β : Type} (f : α → β) : Outcome α → Outcome β
  | .ret val err calls => .ret (f val) err calls
  | .panic calls => .panic calls
  | .stuck => .stuck

/-- A call of one of the exported functions of `zset.go` with its arguments. -/
inductive Op where
  | ZSet (setName key : String) (score : Int)
  | ZGet (setName key : String)
  | ZDel (setName key : String)
  | ZExists (setName key : String)
  | ZCount (setName : String) (start «end» : Arg)
  | ZClear (setName : String)
  | ZScan (setName keyStart : String) (scoreStart scoreEnd : Arg) (limit : Int)
  | ZrScan (setName keyStart : String) (scoreStart scoreEnd : Arg) (limit : Int)
  | MultiZSet (setName : String) (kvs : List (String × Int))
  | MultiZGet (setName : String) (key : List String)
  | MultiZGetSlice (setName : String) (key : List String)
  | MultiZGetArray (setName : String) (key : List String)
  | MultiZGetSliceArray (setName : String) (key : List String)
  | MultiZDel (setName : String) (key : List String)
  | ZIncR (setName key : String) (num : Int)
  | ZList (nameStart nameEnd : String) (limit : Int)
  | ZSize (name : String)
  | ZKeys (setName keyStart : String) (scoreStart scoreEnd : Arg) (limit : Int)
  | ZSum (setName : String) (scoreStart scoreEnd : Arg)
  | ZAvg (setName : String) (scoreStart scoreEnd : Arg)
  | ZRank (setName key : String)
  | ZRRank (setName key : String)
  | ZRange (setName : String) (offset limit : Int)
  | ZRangeSlice (setName : String) (offset limit : Int)
  | ZRRange (setName : String) (offset limit : Int)
  | ZRRangeSlice (setName : String) (offset limit : Int)
  | ZRemRangeByRank (setName : String) (start «end» : Int)
  | ZRemRangeByScore (setName : String) (start «end» : Int)
  | ZPopFront (setName : String) (limit : Int)
  | ZPopBack (setName : String) (limit : Int)
deriving DecidableEq, Repr

/-- Run the operation. -/
def Op.run (env : Env) (c : DbClient) : Op → Outcome Value
  | .ZSet setName key score => (Gossdb.ZSet env c setName key score).map (fun _ => Value.unit)
  | .ZGet setName key => (Gossdb.ZGet env c setName key).map (Value.int)
  | .ZDel setName key => (Gossdb.ZDel env c setName key).map (fun _ => Value.unit)
  | .ZExists setName key => (Gossdb.ZExists env c setName key).map (Value.bool)
  | .ZCount setName start «end» => (Gossdb.ZCount env c setName start «end»).map (Value.int)
  | .ZClear setName => (Gossdb.ZClear env c setName).map (fun _ => Value.unit)
  | .ZScan setName keyStart scoreStart scoreEnd limit => (Gossdb.ZScan env c setName keyStart scoreStart scoreEnd limit).map (fun r => Value.pairs r.1 r.2)
  | .ZrScan setName keyStart scoreStart scoreEnd limit => (Gossdb.ZrScan env c setName keyStart scoreStart scoreEnd limit).map (fun r => Value.pairs r.1 r.2)
  | .MultiZSet setName kvs => (Gossdb.MultiZSet env c setName kvs).map (fun _ => Value.unit)
  | .MultiZGet setName key => (Gossdb.MultiZGet env c setName key).map (Value.map)
  | .MultiZGetSlice setName key => (Gossdb.MultiZGetSlice env c setName key).map (fun r => Value.pairs r.1 r.2)
  | .MultiZGetArray setName key => (Gossdb.MultiZGetArray env c setName key).map (Value.map)
  | .MultiZGetSliceArray setName key => (Gossdb.MultiZGetSliceArray env c setName key).map (fun r => Value.pairs r.1 r.2)
  | .MultiZDel setName key => (Gossdb.MultiZDel env c setName key).map (fun _ => Value.unit)
  | .ZIncR setName key num => (Gossdb.ZIncR env c setName key num).map (Value.int)
  | .ZList nameStart nameEnd limit => (Gossdb.ZList env c nameStart nameEnd limit).map (Value.keys)
  | .ZSize name => (Gossdb.ZSize env c name).map (Value.int)
  | .ZKeys setName keyStart scoreStart scoreEnd limit => (Gossdb.ZKeys env c setName keyStart scoreStart scoreEnd limit).map (Value.keys)
  | .ZSum setName scoreStart scoreEnd => (Gossdb.ZSum env c setName scoreStart scoreEnd).map (Value.int)
  | .ZAvg setName scoreStart scoreEnd => (Gossdb.ZAvg env c setName scoreStart scoreEnd).map (Value.int)
  | .ZRank setName key => (Gossdb.ZRank env c setName key).map (Value.int)
  | .ZRRank setName key => (Gossdb.ZRRank env c setName key).map (Value.int)
  | .ZRange setName offset limit => (Gossdb.ZRange env c setName offset limit).map (Value.map)
  | .ZRangeSlice setName offset limit => (Gossdb.ZRangeSlice env c setName offset limit).map (fun r => Value.pairs r.1 r.2)
  | .ZRRange setName offset limit => (Gossdb.ZRRange env c setName offset limit).map (Value.map)
  | .ZRRangeSlice setName offset limit => (Gossdb.ZRRangeSlice env c setName offset limit).map (fun r => Value.pairs r.1 r.2)
  | .ZRemRangeByRank setName start «end» => (Gossdb.ZRemRangeByRank env c setName start «end»).map (fun _ => Value.unit)
  | .ZRemRangeByScore setName start «end» => (Gossdb.ZRemRangeByScore env c setName start «end»).map (fun _ => Value.unit)
  | .ZPopFront setName limit => (Gossdb.ZPopFront env c setName limit).map (Value.map)
  | .ZPopBack setName limit => (Gossdb.ZPopBack env c setName limit).map (Value.map)

/-- The value an operation returns next to a non-nil error: `nil` for a
slice or map, `false`, `0`, and `-1` for `ZCount`. -/
def Op.placeholder : Op → Value
  | .ZSet _ _ _ => Value.unit
  | .ZGet _ _ => Value.int 0
  | .ZDel _ _ => Value.unit
  | .ZExists _ _ => Value.bool false
  | .ZCount _ _ _ => Value.int (-1)
  | .ZClear _ => Value.unit
  | .ZScan _ _ _ _ _ => Value.pairs none none
  | .ZrScan _ _ _ _ _ => Value.pairs none none
  | .MultiZSet _ _ => Value.unit
  | .MultiZGet _ _ => Value.map none
  | .MultiZGetSlice _ _ => Value.pairs none none
  | .MultiZGetArray _ _ => Value.map none
  | .MultiZGetSliceArray _ _ => Value.pairs none none
  | .MultiZDel _ _ => Value.unit
  | .ZIncR _ _ _ => Value.int 0
  | .ZList _ _ _ => Value.keys none
  | .ZSize _ => Value.int 0
  | .ZKeys _ _ _ _ _ => Value.keys none
  | .ZSum _ _ _ => Value.int 0
  | .ZAvg _ _ _ => Value.int 0
  | .ZRank _ _ => Value.int 0
  | .ZRRank _ _ => Value.int 0
  | .ZRange _ _ _ => Value.map none
  | .ZRangeSlice _ _ _ => Value.pairs none none
  | .ZRRange _ _ _ => Value.map none
  | .ZRRangeSlice _ _ _ => Value.pairs none none
  | .ZRemRangeByRank _ _ _ => Value.unit
  | .ZRemRangeByScore _ _ _ => Value.unit
  | .ZPopFront _ _ => Value.map none
  | .ZPopBack _ _ => Value.map none

/-- The `Do` call an operation issues (the first line of each function, or
the line after its empty-input guard); `none` when the guard returns first. -/
def Op.request : Op → Option Call
  | .ZSet setName key score => some ⟨"zset", [Arg.str setName, Arg.str key, Arg.int score]⟩
  | .ZGet setName key => some ⟨"zget", [Arg.str setName, Arg.str key]⟩
  | .ZDel setName key => some ⟨"zdel", [Arg.str setName, Arg.str key]⟩
  | .ZExists setName key => some ⟨"zexists", [Arg.str setName, Arg.str key]⟩
  | .ZCount setName start «end» => some ⟨"zcount", [Arg.str setName, start, «end»]⟩
  | .ZClear setName => some ⟨"zclear", [Arg.str setName]⟩
  | .ZScan setName keyStart scoreStart scoreEnd limit =>
    some ⟨"zscan", [Arg.str setName, Arg.str keyStart, scoreStart, scoreEnd, Arg.int limit]⟩
  | .ZrScan setName keyStart scoreStart scoreEnd limit =>
    some ⟨"zrscan", [Arg.str setName, Arg.str keyStart, scoreStart, scoreEnd, Arg.int limit]⟩
  | .MultiZSet setName kvs => some ⟨"multi_zset", [Arg.str setName, Arg.anys (flattenKvs kvs)]⟩
  | .MultiZGet setName key =>
    if key.length = 0 then none else some ⟨"multi_zget", [Arg.str setName, Arg.strs key]⟩
  | .MultiZGetSlice setName key =>
    if key.length = 0 then none else some ⟨"multi_zget", [Arg.str setName, Arg.strs key]⟩
  | .MultiZGetArray setName key =>
    if key.length = 0 then none else some ⟨"multi_zget", [Arg.str setName, Arg.strs key]⟩
  | .MultiZGetSliceArray setName key =>
    if key.length = 0 then none else some ⟨"multi_zget", [Arg.str setName, Arg.strs key]⟩
  | .MultiZDel _ key => if key.length = 0 then none else some ⟨"multi_zdel", [Arg.strs key]⟩
  | .ZIncR setName key num =>
    if key.length = 0 then none else some ⟨"zincr", [Arg.str setName, Arg.str key, Arg.int num]⟩
  | .ZList nameStart nameEnd limit =>
    some ⟨"zlist", [Arg.str nameStart, Arg.str nameEnd, Arg.int limit]⟩
  | .ZSize name => some ⟨"zsize", [Arg.str name]⟩
  | .ZKeys setName keyStart scoreStart scoreEnd limit =>
    some ⟨"zkeys", [Arg.str setName, Arg.str keyStart, scoreStart, scoreEnd, Arg.int limit]⟩
  | .ZSum setName scoreStart scoreEnd => some ⟨"zsum", [Arg.str setName, scoreStart, scoreEnd]⟩
  | .ZAvg setName scoreStart scoreEnd => some ⟨"zavg", [Arg.str setName, scoreStart, scoreEnd]⟩
  | .ZRank setName key => some ⟨"zrank", [Arg.str setName, Arg.str key]⟩
  | .ZRRank setName key => some ⟨"zrrank", [Arg.str setName, Arg.str key]⟩
  | .ZRange setName offset limit =>
    some ⟨"zrange", [Arg.str setName, Arg.int offset, Arg.int limit]⟩
  | .ZRangeSlice setName offset limit =>
    some ⟨"zrange", [Arg.str setName, Arg.int offset, Arg.int limit]⟩
  | .ZRRange setName offset limit =>
    some ⟨"zrrange", [Arg.str setName, Arg.int offset, Arg.int limit]⟩
  | .ZRRangeSlice setName offset limit =>
    some ⟨"zrrange", [Arg.str setName, Arg.int offset, Arg.int limit]⟩
  | .ZRemRangeByRank setName start «end» =>
    some ⟨"zremrangebyrank", [Arg.str setName, Arg.int start, Arg.int «end»]⟩
  | .ZRemRangeByScore setName start «end» =>
    some ⟨"zremrangebyscore", [Arg.str setName, Arg.int start, Arg.int «end»]⟩
  | .ZPopFront setName limit => some ⟨"zpop_front", [Arg.str setName, Arg.int limit]⟩
  | .ZPopBack setName limit => some ⟨"zpop_back", [Arg.str setName, Arg.int limit]⟩

/-- The arguments an operation hands to `handError` after the reply (the
last `return` of each function). -/
def Op.handArgs : Op → List Arg
  | .ZSet setName key _ => [Arg.str setName, Arg.str key]
  | .ZGet setName key => [Arg.str setName, Arg.str key]
  | .ZDel setName key => [Arg.str setName, Arg.str key]
  | .ZExists setName key => [Arg.str setName, Arg.str key]
  | .ZCount setName _ _ => [Arg.str setName]
  | .ZClear setName => [Arg.str setName]
  | .ZScan setName keyStart scoreStart scoreEnd limit =>
    [Arg.str setName, Arg.str keyStart, scoreStart, scoreEnd, Arg.int limit]
  | .ZrScan setName keyStart scoreStart scoreEnd limit =>
    [Arg.str setName, Arg.str keyStart, scoreStart, scoreEnd, Arg.int limit]
  | .MultiZSet setName kvs => [Arg.str setName, Arg.kvs kvs]
  | .MultiZGet _ key => [Arg.strs key]
  | .MultiZGetSlice setName key => [Arg.str setName, Arg.strs key]
  | .MultiZGetArray _ key => [Arg.strs key]
  | .MultiZGetSliceArray setName key => [Arg.str setName, Arg.strs key]
  | .MultiZDel setName key => [Arg.str setName, Arg.strs key]
  | .ZIncR setName key _ => [Arg.str setName, Arg.str key]
  | .ZList nameStart nameEnd limit => [Arg.str nameStart, Arg.str nameEnd, Arg.int limit]
  | .ZSize name => [Arg.str name]
  | .ZKeys setName keyStart scoreStart scoreEnd limit =>
    [Arg.str setName, Arg.str keyStart, scoreStart, scoreEnd, Arg.int limit]
  | .ZSum setName scoreStart scoreEnd => [Arg.str setName, scoreStart, scoreEnd]
  | .ZAvg setName scoreStart scoreEnd => [Arg.str setName, scoreStart, scoreEnd]
  | .ZRank setName key => [Arg.str setName, Arg.str key]
  | .ZRRank setName key => [Arg.str setName, Arg.str key]
  | .ZRange setName offset limit => [Arg.str setName, Arg.int offset, Arg.int limit]
  | .ZRangeSlice setName offset limit => [Arg.str setName, Arg.int offset, Arg.int limit]
  | .ZRRange setName offset limit => [Arg.str setName, Arg.int offset, Arg.int limit]
  | .ZRRangeSlice setName offset limit => [Arg.str setName, Arg.int offset, Arg.int limit]
  | .ZRemRangeByRank setName start «end» => [Arg.str setName, Arg.int start, Arg.int «end»]
  | .ZRemRangeByScore setName start «end» => [Arg.str setName, Arg.int start, Arg.int «end»]
  | .ZPopFront setName limit => [Arg.str setName, Arg.int limit]
  | .ZPopBack setName limit => [Arg.str setName, Arg.int limit]

/-! ## Fixtures for the concrete cases -/

/-- A Transport that answers every call with the tokens `resp` and no error. -/
def replying (resp : List String) : DbClient := ⟨fun _ _ => (resp, none)⟩

/-- A Transport whose `Do` fails with the message `e` (and the tokens `resp`). -/
def failing (resp : List String) (e : String) : DbClient := ⟨fun _ _ => (resp, some e)⟩

/-- An environment for the concrete cases: `handError` returns an error
holding the status token, `to.Int64` is `ParseInt` with its error dropped,
`fmt` prints nothing for the operands it is asked about. -/
def sampleEnv : Env where
  handError := fun resp _ => some (GoError.other (resp.headD "") "")
  toInt64 := fun t => (ParseInt t).1
  sprint := fun _ => ""

/-- The same environment with a `handError` that returns a nil error. -/
def quietEnv : Env where
  handError := fun _ _ => none
  toInt64 := fun t => (ParseInt t).1
  sprint := fun _ => ""

/-- The text `msg` contains the text `e`. -/
def Contains (msg e : String) : Prop := ∃ pre post : String, msg = pre ++ e ++ post

/-- The list `k1, v1, k2, v2, ...` of the entries of a map taken in order:
what the loop of `MultiZSet` builds (see `flattenKvs_getD`). -/
def interleave : List (String × Int) → List Scalar
  | [] => []
  | kv :: rest => Scalar.str kv.1 :: Scalar.int kv.2 :: interleave rest

/-- The guard on the reply's length an operation checks next to
`resp[0] == "ok"`: `len(resp) == 2` in `ZGet`, `ZExists` and `ZCount`,
`len(resp) > 1` in `ZIncR`, `len(resp) > 0` in every other operation. -/
def Op.lenGuard : Op → Nat → Bool
  | .ZGet _ _, n => n == 2
  | .ZExists _ _, n => n == 2
  | .ZCount _ _ _, n => n == 2
  | .ZIncR _ _ _, n => decide (n > 1)
  | _, n => decide (n > 0)

/-- The operations that read `resp[1]` under the guard `len(resp) > 0`. -/
def Op.readsPayload : Op → Bool
  | .ZSize _ => true
  | .ZSum _ _ _ => true
  | .ZAvg _ _ _ => true
  | .ZRank _ _ => true
  | .ZRRank _ _ => true
  | _ => false

/-- The pairs of a payload taken two tokens at a time, folded into a state;
a last token without a partner is left out. -/
def foldPairs {σ : Type} (step : σ → String → String → σ) : σ → List String → σ
  | st, k :: t :: rest => foldPairs step (step st k t) rest
  | st, _ => st

/-- The keys of a payload `k1, s1, k2, s2, ...`: the first token of each pair. -/
def pairKeys : List String → List String
  | k :: _ :: rest => k :: pairKeys rest
  | _ => []

/-- The scores of a payload `k1, s1, k2, s2, ...`: the second token of each
pair, converted by `f`. -/
def pairScores (f : String → Int) : List String → List Int
  | _ :: t :: rest => f t :: pairScores f rest
  | _ => []

/-- The full argument list of an operation: the parameters of the Go
function in the order of its signature, each as one value. -/
def Op.fullArgs : Op → List Arg
  | .ZSet setName key score => [Arg.str setName, Arg.str key, Arg.int score]
  | .ZGet setName key => [Arg.str setName, Arg.str key]
  | .ZDel setName key => [Arg.str setName, Arg.str key]
  | .ZExists setName key => [Arg.str setName, Arg.str key]
  | .ZCount setName start «end» => [Arg.str setName, start, «end»]
  | .ZClear setName => [Arg.str setName]
  | .ZScan setName keyStart scoreStart scoreEnd limit =>
    [Arg.str setName, Arg.str keyStart, scoreStart, scoreEnd, Arg.int limit]
  | .ZrScan setName keyStart scoreStart scoreEnd limit =>
    [Arg.str setName, Arg.str keyStart, scoreStart, scoreEnd, Arg.int limit]
  | .MultiZSet setName kvs => [Arg.str setName, Arg.kvs kvs]
  | .MultiZGet setName key => [Arg.str setName, Arg.strs key]
  | .MultiZGetSlice setName key => [Arg.str setName, Arg.strs key]
  | .MultiZGetArray setName key => [Arg.str setName, Arg.strs key]
  | .MultiZGetSliceArray setName key => [Arg.str setName, Arg.strs key]
  | .MultiZDel setName key => [Arg.str setName, Arg.strs key]
  | .ZIncR setName key num => [Arg.str setName, Arg.str key, Arg.int num]
  | .ZList nameStart nameEnd limit => [Arg.str nameStart, Arg.str nameEnd, Arg.int limit]
  | .ZSize name => [Arg.str name]
  | .ZKeys setName keyStart scoreStart scoreEnd limit =>
    [Arg.str setName, Arg.str keyStart, scoreStart, scoreEnd, Arg.int limit]
  | .ZSum setName scoreStart scoreEnd => [Arg.str setName, scoreStart, scoreEnd]
  | .ZAvg setName scoreStart scoreEnd => [Arg.str setName, scoreStart, scoreEnd]
  | .ZRank setName key => [Arg.str setName, Arg.str key]
  | .ZRRank setName key => [Arg.str setName, Arg.str key]
  | .ZRange setName offset limit => [Arg.str setName, Arg.int offset, Arg.int limit]
  | .ZRangeSlice setName offset limit => [Arg.str setName, Arg.int offset, Arg.int limit]
  | .ZRRange setName offset limit => [Arg.str setName, Arg.int offset, Arg.int limit]
  | .ZRRangeSlice setName offset limit => [Arg.str setName, Arg.int offset, Arg.int limit]
  | .ZRemRangeByRank setName start «end» => [Arg.str setName, Arg.int start, Arg.int «end»]
  | .ZRemRangeByScore setName start «end» => [Arg.str setName, Arg.int start, Arg.int «end»]
  | .ZPopFront setName limit => [Arg.str setName, Arg.int limit]
  | .ZPopBack setName limit => [Arg.str setName, Arg.int limit]

/-- The operations whose `handError` call leaves out one of their arguments:
`ZSet` (the score), `ZCount` (start and end), `ZIncR` (num), `MultiZGet` and
`MultiZGetArray` (setName). -/
def Op.dropsArgs : Op → Bool
  | .ZSet _ _ _ => true
  | .ZCount _ _ _ => true
  | .ZIncR _ _ _ => true
  | .MultiZGet _ _ => true
  | .MultiZGetArray _ _ => true
  | _ => false

/-- The operations that decode the payload as key-score pairs. -/
def Op.decodesPairs : Op → Bool
  | .ZScan _ _ _ _ _ => true
  | .ZrScan _ _ _ _ _ => true
  | .MultiZGet _ _ => true
  | .MultiZGetSlice _ _ => true
  | .MultiZGetArray _ _ => true
  | .MultiZGetSliceArray _ _ => true
  | .ZRange _ _ _ => true
  | .ZRangeSlice _ _ _ => true
  | .ZRRange _ _ _ => true
  | .ZRRangeSlice _ _ _ => true
  | .ZPopFront _ _ => true
  | .ZPopBack _ _ => true
  | _ => false

/-- The map a payload `k1, s1, k2, s2, ...` decodes to: `val[k] = f(s)` for
each pair in order, a later pair overwriting an earlier one with its key. -/
def decodeMap (f : String → Int) (payload : List String) : List (String × Int) :=
  foldPairs (fun m k t => mapSet m k (f t)) [] payload

/-- The map obtained by inserting the pairs `(keys[i], vals[i])` in order, a
later duplicate key overwriting an earlier one. -/
def insertPairs (keys : List String) (vals : List Int) : List (String × Int) :=
  (keys.zip vals).foldl (fun m kv => mapSet m kv.1 kv.2) []

/-- An environment whose `handError` reports how many arguments it was
given, one `*` each, next to the status token. -/
def argCountEnv : Env where
  handError := fun resp args =>
    some (GoError.other (resp.headD "") (String.mk (List.replicate args.length '*')))
  toInt64 := fun t => (ParseInt t).1
  sprint := fun _ => ""

/-- The two slices an operation returned have the same length. -/
def Outcome.sameLen (o : Outcome (Option (List String) × Option (List Int))) : Prop :=
  match o with
  | .ret v _ _ => goLen v.1 = goLen v.2
  | _ => False

/-- The value an operation returns on a reply `"ok" :: payload` that passes
its length guard: the decoded result, row by row what the source computes.
The single-value decoders read `resp[1]`, the first payload token (the guard
makes sure there is one); `ZScan` and `ZrScan` parse every score from
`resp[1]` (zset.go 135, 166); `MultiZGetSlice` and `MultiZGetSliceArray`
append to slices made with `(size-1)/2` zero values (zset.go 245-246,
302-303). -/
def Op.decoded (env : Env) : Op → List String → Value
  | .ZSet _ _ _, _ => Value.unit
  | .ZGet _ _, payload => Value.int (ParseInt (payload.headD "")).1
  | .ZDel _ _, _ => Value.unit
  | .ZExists _ _, payload => Value.bool (decide (payload.headD "" = "1"))
  | .ZCount _ _ _, payload => Value.int (ParseInt (payload.headD "")).1
  | .ZClear _, _ => Value.unit
  | .ZScan _ _ _ _ _, payload =>
    Value.pairs (some (pairKeys payload))
      (some (List.replicate (pairKeys payload).length (ParseInt (payload.headD "")).1))
  | .ZrScan _ _ _ _ _, payload =>
    Value.pairs (some (pairKeys payload))
      (some (List.replicate (pairKeys payload).length (ParseInt (payload.headD "")).1))
  | .MultiZSet _ _, _ => Value.unit
  | .MultiZGet _ _, payload => Value.map (some (decodeMap (fun t => (ParseInt t).1) payload))
  | .MultiZGetSlice _ _, payload =>
    Value.pairs (some (List.replicate (payload.length / 2) "" ++ pairKeys payload))
      (some (List.replicate (payload.length / 2) 0 ++ pairScores env.toInt64 payload))
  | .MultiZGetArray _ _, payload => Value.map (some (decodeMap env.toInt64 payload))
  | .MultiZGetSliceArray _ _, payload =>
    Value.pairs (some (List.replicate (payload.length / 2) "" ++ pairKeys payload))
      (some (List.replicate (payload.length / 2) 0 ++ pairScores env.toInt64 payload))
  | .MultiZDel _ _, _ => Value.unit
  | .ZIncR _ _ _, payload => Value.int (env.toInt64 (payload.headD ""))
  | .ZList _ _ _, payload => Value.keys (some payload)
  | .ZSize _, payload => Value.int (env.toInt64 (payload.headD ""))
  | .ZKeys _ _ _ _ _, payload => Value.keys (some payload)
  | .ZSum _ _ _, payload => Value.int (env.toInt64 (payload.headD ""))
  | .ZAvg _ _ _, payload => Value.int (env.toInt64 (payload.headD ""))
  | .ZRank _ _, payload => Value.int (env.toInt64 (payload.headD ""))
  | .ZRRank _ _, payload => Value.int (env.toInt64 (payload.headD ""))
  | .ZRange _ _ _, payload => Value.map (some (decodeMap env.toInt64 payload))
  | .ZRangeSlice _ _ _, payload =>
    Value.pairs (some (pairKeys payload)) (some (pairScores env.toInt64 payload))
  | .ZRRange _ _ _, payload => Value.map (some (decodeMap env.toInt64 payload))
  | .ZRRangeSlice _ _ _, payload =>
    Value.pairs (some (pairKeys payload)) (some (pairScores env.toInt64 payload))
  | .ZRemRangeByRank _ _ _, _ => Value.unit
  | .ZRemRangeByScore _ _ _, _ => Value.unit
  | .ZPopFront _ _, payload => Value.map (some (decodeMap env.toInt64 payload))
  | .ZPopBack _ _, payload => Value.map (some (decodeMap env.toInt64 payload))

/-- The error an operation returns on a reply `"ok" :: payload` that passes
its length guard: the error of `strconv.ParseInt` in `ZGet` and `ZCount`,
which return it as it is, and nil in every other operation. -/
def Op.decodeErr : Op → List String → Option GoError
  | .ZGet _ _, payload => (ParseInt (payload.headD "")).2
  | .ZCount _ _ _, payload => (ParseInt (payload.headD "")).2
  | _, _ => none

/-! ## Lemmas on loops -/

theorem forLoop_ne_fuel {σ : Type} (cond : Nat → Bool) (post : Nat → Nat)
    (body : Nat → σ → Option σ) (bound : Nat)
    (hcond : ∀ i, cond i = true → i < bound) (hpost : ∀ i, i < post i) :
    ∀ (fuel i : Nat) (st : σ), bound ≤ fuel + i → forLoop cond post body fuel i st ≠ Loop.fuel := by
  intro fuel
  induction fuel with
  | zero =>
    intro i st hb
    unfold forLoop
    split
    · rename_i hc
      have := hcond i hc
      omega
    · simp
  | succ n ih =>
    intro i st hb
    unfold forLoop
    split
    · split
      · simp
      · apply ih
        have := hpost i
        omega
    · simp

theorem loopA_ne_fuel {σ : Type} (body : Nat → σ → Option σ) (size : Nat) (st : σ) :
    forLoop (fun i => decide (i < size - 1)) (fun i => i + 2) body size 1 st ≠ Loop.fuel := by
  apply forLoop_ne_fuel _ _ _ size
  · intro i h; simp at h; omega
  · intro i; omega
  · omega

theorem loopB_ne_fuel {σ : Type} (body : Nat → σ → Option σ) (size : Nat) (st : σ) :
    forLoop (fun i => decide (i < size) && decide (i + 1 < size)) (fun i => i + 2) body size 1 st
      ≠ Loop.fuel := by
  apply forLoop_ne_fuel _ _ _ size
  · intro i h; simp at h; omega
  · intro i; omega
  · omega

theorem loopC_ne_fuel {σ : Type} (body : Nat → σ → Option σ) (size : Nat) (st : σ) :
    forLoop (fun i => decide (i < size)) (fun i => i + 1) body size 1 st ≠ Loop.fuel := by
  apply forLoop_ne_fuel _ _ _ size
  · intro i h; simp at h; omega
  · intro i; omega
  · omega

theorem condA_eq (size : Nat) :
    (fun i => decide (i < size - 1)) = (fun i => decide (i + 1 < size)) := by
  funext i
  apply decide_eq_decide.mpr
  omega

theorem condB_eq (size : Nat) :
    (fun i => decide (i < size) && decide (i + 1 < size)) = (fun i => decide (i + 1 < size)) := by
  funext i
  by_cases h : i + 1 < size
  · have h' : i < size := by omega
    simp [h, h']
  · simp [h]

theorem drop_two_of_lt (resp : List String) (i : Nat) (h : i + 1 < resp.length) :
    ∃ k t, resp[i]? = some k ∧ resp[i + 1]? = some t
      ∧ resp.drop i = k :: t :: resp.drop (i + 2) := by
  refine ⟨resp[i], resp[i + 1], List.getElem?_eq_getElem (by omega), List.getElem?_eq_getElem h, ?_⟩
  rw [List.drop_eq_getElem_cons (by omega : i < resp.length),
    List.drop_eq_getElem_cons h]

theorem pairLoop_spec {σ : Type} (resp : List String) (body : Nat → σ → Option σ)
    (step : σ → String → String → σ)
    (hbody : ∀ i st k t, resp[i]? = some k → resp[i + 1]? = some t →
      body i st = some (step st k t)) :
    ∀ (fuel i : Nat) (st : σ), resp.length ≤ fuel + i →
      forLoop (fun i => decide (i + 1 < resp.length)) (fun i => i + 2) body fuel i st
        = Loop.done (foldPairs step st (resp.drop i)) := by
  intro fuel
  induction fuel with
  | zero =>
    intro i st hb
    have hd : resp.drop i = [] := List.drop_eq_nil_of_le (by omega)
    have hc : ¬ (i + 1 < resp.length) := by omega
    simp [forLoop, hc, hd, foldPairs]
  | succ n ih =>
    intro i st hb
    by_cases hc : i + 1 < resp.length
    · obtain ⟨k, t, hk, ht, hd⟩ := drop_two_of_lt resp i hc
      simp only [forLoop, hc, decide_True, if_true, hbody i st k t hk ht]
      rw [ih (i + 2) _ (by omega), hd]
      simp [foldPairs]
    · have hlen : (resp.drop i).length ≤ 1 := by simp; omega
      have hfold : foldPairs step st (resp.drop i) = st := by
        match hm : resp.drop i with
        | [] => simp [foldPairs]
        | [_] => simp [foldPairs]
        | a :: b :: r => rw [hm] at hlen; simp at hlen
      simp [forLoop, hc, hfold]

theorem foldPairs_slices (f : String → Int) :
    ∀ (l : List String) (st : List String × List Int),
      foldPairs (fun st k t => (st.1 ++ [k], st.2 ++ [f t])) st l
        = (st.1 ++ pairKeys l, st.2 ++ pairScores f l)
  | [], st => by simp [foldPairs, pairKeys, pairScores]
  | [_], st => by simp [foldPairs, pairKeys, pairScores]
  | k :: t :: rest, st => by
    simp only [foldPairs, pairKeys, pairScores]
    rw [foldPairs_slices f rest]
    simp

theorem pairScores_const (v : Int) :
    ∀ l : List String, pairScores (fun _ => v) l = List.replicate (pairKeys l).length v
  | [] => by simp [pairKeys, pairScores]
  | [_] => by simp [pairKeys, pairScores]
  | k :: t :: rest => by
    simp only [pairKeys, pairScores, List.length_cons, List.replicate_succ]
    rw [pairScores_const v rest]

theorem pairKeys_length (l : List String) : (pairKeys l).length = l.length / 2 := by
  match l with
  | [] => simp [pairKeys]
  | [_] => simp [pairKeys]
  | k :: t :: rest =>
    simp only [pairKeys, List.length_cons, pairKeys_length rest]
    omega

theorem pairScores_length (f : String → Int) (l : List String) :
    (pairScores f l).length = l.length / 2 := by
  match l with
  | [] => simp [pairScores]
  | [_] => simp [pairScores]
  | k :: t :: rest =>
    simp only [pairScores, List.length_cons, pairScores_length f rest]
    omega

theorem scanLoop_spec (status : String) (payload : List String) :
    forLoop (fun i => decide (i < (status :: payload).length - 1)) (fun i => i + 2)
        (scanBody (status :: payload)) (status :: payload).length 1 ([], [])
      = Loop.done (pairKeys payload,
          List.replicate (pairKeys payload).length (ParseInt (payload.headD "")).1) := by
  rw [condA_eq, pairLoop_spec (status :: payload) (scanBody (status :: payload))
    (fun st k _ => (st.1 ++ [k], st.2 ++ [(ParseInt (payload.headD "")).1]))]
  · simp only [List.drop_succ_cons, List.drop_zero]
    rw [foldPairs_slices (fun _ => (ParseInt (payload.headD "")).1), pairScores_const]
    simp
  · intro i st k t hk ht
    cases payload with
    | nil =>
      cases i <;> simp at ht
    | cons p rest =>
      simp [scanBody, hk]
  · omega

theorem sliceLoopB_spec (env : Env) (status : String) (payload : List String)
    (st : List String × List Int) :
    forLoop (fun i => decide (i < (status :: payload).length)
          && decide (i + 1 < (status :: payload).length)) (fun i => i + 2)
        (sliceBody env (status :: payload)) (status :: payload).length 1 st
      = Loop.done (st.1 ++ pairKeys payload, st.2 ++ pairScores env.toInt64 payload) := by
  rw [condB_eq, pairLoop_spec (status :: payload) (sliceBody env (status :: payload))
    (fun st k t => (st.1 ++ [k], st.2 ++ [env.toInt64 t]))]
  · simp only [List.drop_succ_cons, List.drop_zero]
    rw [foldPairs_slices env.toInt64]
  · intro i st k t hk ht
    simp [sliceBody, hk, ht]
  · omega

/-! ## The calls an operation issues -/

theorem calls_map {α β : Type} (f : α → β) (o : Outcome α) : (o.map f).calls = o.calls := by
  cases o <;> rfl

/-- Every operation issues the call of `Op.request` and no other, whatever
the Transport replies: no operation ends in `Outcome.stuck`. -/
theorem run_calls (env : Env) (c : DbClient) (op : Op) :
    (Op.run env c op).calls = (Op.request op).toList := by
  cases op <;>
  simp only [Op.run, Op.request, ZSet, ZGet, ZDel, ZExists, ZCount, ZClear, ZScan, ZrScan, MultiZSet,
    MultiZGet, MultiZGetSlice, MultiZGetArray, MultiZGetSliceArray, MultiZDel, ZIncR, ZList, ZSize,
    ZKeys, ZSum, ZAvg, ZRank, ZRRank, ZRange, ZRangeSlice, ZRRange, ZRRangeSlice, ZRemRangeByRank,
    ZRemRangeByScore, ZPopFront, ZPopBack]
  all_goals repeat' split
  all_goals first
    | rfl
    | (exfalso; rename_i h
       first
         | exact loopA_ne_fuel _ _ _ h
         | exact loopB_ne_fuel _ _ _ h
         | exact loopC_ne_fuel _ _ _ h)

/-! ## Decoding of scans and batch reads (C1, C2) -/

/-- C1 (the code departs from it): on every reply `"ok", k1, s1, ..., kn, sn`
`ZScan` and `ZrScan` return a nil error and the keys `k1, ..., kn`, but every
one of the n scores is `strconv.ParseInt` of `resp[1]`, the first key `k1`,
not of the token paired with the key. -/
theorem C1_ZScan_scores_parse_first_token (env : Env) (c : DbClient) (setName keyStart : String)
    (scoreStart scoreEnd : Arg) (limit : Int) (payload : List String)
    (hscan : c.Do "zscan" [Arg.str setName, Arg.str keyStart, scoreStart, scoreEnd, Arg.int limit]
      = ("ok" :: payload, none))
    (hrscan : c.Do "zrscan" [Arg.str setName, Arg.str keyStart, scoreStart, scoreEnd, Arg.int limit]
      = ("ok" :: payload, none)) :
    ZScan env c setName keyStart scoreStart scoreEnd limit
        = Outcome.ret (some (pairKeys payload),
            some (List.replicate (pairKeys payload).length (ParseInt (payload.headD "")).1)) none
            [⟨"zscan", [Arg.str setName, Arg.str keyStart, scoreStart, scoreEnd, Arg.int limit]⟩]
    ∧ ZrScan env c setName keyStart scoreStart scoreEnd limit
        = Outcome.ret (some (pairKeys payload),
            some (List.replicate (pairKeys payload).length (ParseInt (payload.headD "")).1)) none
            [⟨"zrscan", [Arg.str setName, Arg.str keyStart, scoreStart, scoreEnd, Arg.int limit]⟩] := by
  constructor
  · simp only [ZScan, hscan]
    rw [scanLoop_spec]
    simp [isOk]
  · simp only [ZrScan, hrscan]
    rw [scanLoop_spec]
    simp [isOk]

/-- C1, witness: on the reply `["ok","b","10","c","20"]` to
`ZScan(setName, "a", 10, 20, 10)` the keys are `["b","c"]` and the scores
`[0, 0]`, not `[10, 20]` (`"b"` does not parse, which gives 0). -/
theorem C1_ZScan_scores_parse_first_token_witness :
    ZScan sampleEnv (replying ["ok", "b", "10", "c", "20"]) "s" "a" (Arg.int 10) (Arg.int 20) 10
        = Outcome.ret (some ["b", "c"], some [0, 0]) none
            [⟨"zscan", [Arg.str "s", Arg.str "a", Arg.int 10, Arg.int 20, Arg.int 10]⟩]
    ∧ ZrScan sampleEnv (replying ["ok", "b", "10", "c", "20"]) "s" "a" (Arg.int 10) (Arg.int 20) 10
        = Outcome.ret (some ["b", "c"], some [0, 0]) none
            [⟨"zrscan", [Arg.str "s", Arg.str "a", Arg.int 10, Arg.int 20, Arg.int 10]⟩] :=
  C1_ZScan_scores_parse_first_token sampleEnv (replying ["ok", "b", "10", "c", "20"]) "s" "a"
    (Arg.int 10) (Arg.int 20) 10 ["b", "10", "c", "20"] rfl rfl

/-- C2 (the code departs from it): for a non-empty key list and every reply
`"ok", k1, s1, ..., kn, sn`, `MultiZGetSlice` and `MultiZGetSliceArray` return
a nil error and two slices of length `2n`, not `n`: the keys and the scores
come after `n` leading zero values (the empty string, and 0), left there by
`make([]string, (size-1)/2)` and `make([]int64, (size-1)/2)`. -/
theorem C2_MultiZGetSlice_leading_zero_values (env : Env) (c : DbClient) (setName : String)
    (key : List String) (payload : List String) (hkey : key ≠ [])
    (hdo : c.Do "multi_zget" [Arg.str setName, Arg.strs key] = ("ok" :: payload, none)) :
    MultiZGetSlice env c setName key
        = Outcome.ret
            (some (List.replicate (payload.length / 2) "" ++ pairKeys payload),
             some (List.replicate (payload.length / 2) 0 ++ pairScores env.toInt64 payload)) none
            [⟨"multi_zget", [Arg.str setName, Arg.strs key]⟩]
    ∧ MultiZGetSliceArray env c setName key
        = Outcome.ret
            (some (List.replicate (payload.length / 2) "" ++ pairKeys payload),
             some (List.replicate (payload.length / 2) 0 ++ pairScores env.toInt64 payload)) none
            [⟨"multi_zget", [Arg.str setName, Arg.strs key]⟩] := by
  have hlen : ¬ key.length = 0 := fun h => hkey (List.length_eq_zero.mp h)
  constructor
  · simp only [MultiZGetSlice, hlen, if_false, hdo]
    rw [sliceLoopB_spec]
    simp [isOk]
  · simp only [MultiZGetSliceArray, hlen, if_false, hdo]
    rw [sliceLoopB_spec]
    simp [isOk]

/-- C2, witness: on the reply `["ok","a","1"]` to a read of the one key `a`
the keys are `["", "a"]` and the scores `[0, 1]`: length 2, not 1. -/
theorem C2_MultiZGetSlice_leading_zero_values_witness :
    MultiZGetSlice sampleEnv (replying ["ok", "a", "1"]) "s" ["a"]
        = Outcome.ret (some ["", "a"], some [0, 1]) none
            [⟨"multi_zget", [Arg.str "s", Arg.strs ["a"]]⟩]
    ∧ MultiZGetSliceArray sampleEnv (replying ["ok", "a", "1"]) "s" ["a"]
        = Outcome.ret (some ["", "a"], some [0, 1]) none
            [⟨"multi_zget", [Arg.str "s", Arg.strs ["a"]]⟩] :=
  C2_MultiZGetSlice_leading_zero_values sampleEnv (replying ["ok", "a", "1"]) "s" ["a"]
    ["a", "1"] (by decide) rfl

/-! ## Empty batch input (C3, C4) -/

/-- C3: with zero keys `MultiZGet` and `MultiZGetArray` return an empty map
and a nil error, `MultiZGetSlice` and `MultiZGetSliceArray` two empty slices
and a nil error, `MultiZDel` a nil error; none of them calls `Do`, whatever
the Transport is. -/
theorem C3_zero_keys_skip_transport (env : Env) (c : DbClient) (setName : String) :
    MultiZGet env c setName [] = Outcome.ret (some []) none []
    ∧ MultiZGetArray env c setName [] = Outcome.ret (some []) none []
    ∧ MultiZGetSlice env c setName [] = Outcome.ret (some [], some []) none []
    ∧ MultiZGetSliceArray env c setName [] = Outcome.ret (some [], some []) none []
    ∧ MultiZDel env c setName [] = Outcome.ret () none [] := by
  refine ⟨rfl, rfl, rfl, rfl, rfl⟩

/-- C4 (the code departs from it): `MultiZSet` has no guard for the empty
map.  It calls `Do("multi_zset", setName, args)` with the nil slice `args`,
and its result is the Transport's: a failing `Do` gives a non-nil error. -/
theorem C4_MultiZSet_empty_map_calls_transport (env : Env) (c : DbClient) (setName : String) :
    (MultiZSet env c setName []).calls = [⟨"multi_zset", [Arg.str setName, Arg.anys none]⟩]
    ∧ MultiZSet env (failing [] "EOF") setName []
        = Outcome.ret ()
            (some (GoError.errorf
              ("MultiZset " ++ setName ++ " " ++ env.sprint (Arg.kvs []) ++ " error: " ++ "EOF")))
            [⟨"multi_zset", [Arg.str setName, Arg.anys none]⟩] := by
  constructor
  · have h := run_calls env c (Op.MultiZSet setName [])
    simpa [Op.run, calls_map, Op.request, flattenKvs] using h
  · rfl

theorem length_ne_zero_of_ne_empty (key : String) (hkey : key ≠ "") : ¬ key.length = 0 := by
  intro h
  apply hkey
  cases key with
  | mk data =>
    simp only [String.length] at h
    have : data = [] := List.length_eq_zero.mp h
    subst this
    rfl

/-! ## The calls of the batch and scalar operations (C5, C6, C7) -/

/-- C5 (the code departs from it for `MultiZDel`): with a non-empty key list
each batch read issues the one call `Do("multi_zget", setName, key)` and
`MultiZSet` the one call `Do("multi_zset", setName, args)`, the flattened list
being the one trailing argument; `MultiZDel` issues `Do("multi_zdel", key)`,
in which `setName` is not sent at all. -/
theorem C5_batch_calls (env : Env) (c : DbClient) (setName : String) (kvs : List (String × Int))
    (key : List String) (hkey : key ≠ []) :
    (MultiZSet env c setName kvs).calls
        = [⟨"multi_zset", [Arg.str setName, Arg.anys (flattenKvs kvs)]⟩]
    ∧ (MultiZGet env c setName key).calls = [⟨"multi_zget", [Arg.str setName, Arg.strs key]⟩]
    ∧ (MultiZGetSlice env c setName key).calls = [⟨"multi_zget", [Arg.str setName, Arg.strs key]⟩]
    ∧ (MultiZGetArray env c setName key).calls = [⟨"multi_zget", [Arg.str setName, Arg.strs key]⟩]
    ∧ (MultiZGetSliceArray env c setName key).calls
        = [⟨"multi_zget", [Arg.str setName, Arg.strs key]⟩]
    ∧ (MultiZDel env c setName key).calls = [⟨"multi_zdel", [Arg.strs key]⟩] := by
  have hlen : ¬ key.length = 0 := fun h => hkey (List.length_eq_zero.mp h)
  have h1 := run_calls env c (Op.MultiZSet setName kvs)
  have h2 := run_calls env c (Op.MultiZGet setName key)
  have h3 := run_calls env c (Op.MultiZGetSlice setName key)
  have h4 := run_calls env c (Op.MultiZGetArray setName key)
  have h5 := run_calls env c (Op.MultiZGetSliceArray setName key)
  have h6 := run_calls env c (Op.MultiZDel setName key)
  simp only [Op.run, calls_map, Op.request, hlen, if_false, Option.toList] at h1 h2 h3 h4 h5 h6
  exact ⟨h1, h2, h3, h4, h5, h6⟩

/-- C5, witness: the call of `MultiZDel` for the set `s` and the key `a`. -/
theorem C5_batch_calls_witness :
    ["a"] ≠ ([] : List String)
    ∧ (MultiZDel sampleEnv (replying ["ok"]) "s" ["a"]).calls = [⟨"multi_zdel", [Arg.strs ["a"]]⟩] :=
  ⟨by decide, (C5_batch_calls sampleEnv (replying ["ok"]) "s" [("a", 1)] ["a"] (by decide)).2.2.2.2.2⟩

/-- C7: for a non-empty key the scalar operations issue exactly one call
each, with the command name and the arguments in this order: `zset setName
key score`, `zget setName key`, `zdel setName key`, `zexists setName key`,
`zincr setName key num` (for every `num`, negative ones too), `zsize
setName`, `zrank setName key`, `zrrank setName key`. -/
theorem C7_scalar_calls (env : Env) (c : DbClient) (setName key : String) (score num : Int)
    (hkey : key ≠ "") :
    (ZSet env c setName key score).calls
        = [⟨"zset", [Arg.str setName, Arg.str key, Arg.int score]⟩]
    ∧ (ZGet env c setName key).calls = [⟨"zget", [Arg.str setName, Arg.str key]⟩]
    ∧ (ZDel env c setName key).calls = [⟨"zdel", [Arg.str setName, Arg.str key]⟩]
    ∧ (ZExists env c setName key).calls = [⟨"zexists", [Arg.str setName, Arg.str key]⟩]
    ∧ (ZIncR env c setName key num).calls
        = [⟨"zincr", [Arg.str setName, Arg.str key, Arg.int num]⟩]
    ∧ (ZSize env c setName).calls = [⟨"zsize", [Arg.str setName]⟩]
    ∧ (ZRank env c setName key).calls = [⟨"zrank", [Arg.str setName, Arg.str key]⟩]
    ∧ (ZRRank env c setName key).calls = [⟨"zrrank", [Arg.str setName, Arg.str key]⟩] := by
  have hlen := length_ne_zero_of_ne_empty key hkey
  have h1 := run_calls env c (Op.ZSet setName key score)
  have h2 := run_calls env c (Op.ZGet setName key)
  have h3 := run_calls env c (Op.ZDel setName key)
  have h4 := run_calls env c (Op.ZExists setName key)
  have h5 := run_calls env c (Op.ZIncR setName key num)
  have h6 := run_calls env c (Op.ZSize setName)
  have h7 := run_calls env c (Op.ZRank setName key)
  have h8 := run_calls env c (Op.ZRRank setName key)
  simp only [Op.run, calls_map, Op.request, hlen, if_false, Option.toList]
    at h1 h2 h3 h4 h5 h6 h7 h8
  exact ⟨h1, h2, h3, h4, h5, h6, h7, h8⟩

/-- C7, witness: `ZIncR` with the negative amount -2. -/
theorem C7_scalar_calls_witness :
    "k" ≠ "" ∧ (ZIncR sampleEnv (replying ["ok", "3"]) "s" "k" (-2)).calls
        = [⟨"zincr", [Arg.str "s", Arg.str "k", Arg.int (-2)]⟩] :=
  ⟨by decide, (C7_scalar_calls sampleEnv (replying ["ok", "3"]) "s" "k" 7 (-2) (by decide)).2.2.2.2.1⟩

theorem foldl_flatten (l : List (String × Int)) : ∀ acc : Option (List Scalar),
    (l.foldl (fun args kv => goAppend (goAppend args (Scalar.str kv.1)) (Scalar.int kv.2)) acc).getD []
      = acc.getD [] ++ interleave l := by
  induction l with
  | nil => intro acc; simp [interleave]
  | cons kv rest ih =>
    intro acc
    simp only [List.foldl_cons]
    rw [ih]
    simp [goAppend, interleave]

theorem flattenKvs_getD (l : List (String × Int)) : (flattenKvs l).getD [] = interleave l := by
  simpa [flattenKvs] using foldl_flatten l none

theorem interleave_length (l : List (String × Int)) : (interleave l).length = 2 * l.length := by
  induction l with
  | nil => rfl
  | cons kv rest ih => simp only [interleave, List.length_cons, ih]; omega

theorem interleave_even (l : List (String × Int)) : ∀ i, i < l.length →
    ∃ kv, kv ∈ l ∧ (interleave l)[2 * i]? = some (Scalar.str kv.1)
      ∧ (interleave l)[2 * i + 1]? = some (Scalar.int kv.2) := by
  induction l with
  | nil => intro i h; simp at h
  | cons kv rest ih =>
    intro i h
    cases i with
    | zero => exact ⟨kv, by simp, by simp [interleave], by simp [interleave]⟩
    | succ j =>
      obtain ⟨kv', hmem, h0, h1⟩ := ih j (by simpa using h)
      refine ⟨kv', by simp [hmem], ?_, ?_⟩
      · have : 2 * (j + 1) = (2 * j) + 1 + 1 := by omega
        rw [this]; simpa [interleave] using h0
      · have : 2 * (j + 1) + 1 = (2 * j + 1) + 1 + 1 := by omega
        rw [this]; simpa [interleave] using h1

theorem interleave_count (k : String) (l : List (String × Int)) :
    (interleave l).count (Scalar.str k) = (l.map Prod.fst).count k := by
  induction l with
  | nil => rfl
  | cons kv rest ih =>
    simp only [interleave, List.map_cons, List.count_cons, ih]
    simp

theorem mapGet_of_mem (l : List (String × Int)) (hnd : (l.map Prod.fst).Nodup) (k : String) (v : Int)
    (hmem : (k, v) ∈ l) : mapGet l k = some v := by
  induction l with
  | nil => simp at hmem
  | cons kv rest ih =>
    obtain ⟨k', v'⟩ := kv
    simp only [List.map_cons, List.nodup_cons] at hnd
    simp only [mapGet]
    rcases List.mem_cons.mp hmem with h | h
    · cases h; simp
    · have hne : k' ≠ k := by
        intro heq
        apply hnd.1
        rw [heq]
        exact List.mem_map_of_mem Prod.fst h
      simp [hne, ih hnd.2 h]

/-- C6: for a map `kvs` (its keys distinct) visited in any order `ord`, the
list `MultiZSet` passes as the trailing argument has length `2 * |kvs|`,
holds at each even position `2i` a key of `kvs` and at `2i+1` the score
`kvs` has for that key, and holds every key of `kvs` exactly once. -/
theorem C6_MultiZSet_flattening (env : Env) (c : DbClient) (setName : String)
    (kvs ord : List (String × Int)) (hmap : (kvs.map Prod.fst).Nodup) (hord : ord.Perm kvs) :
    ∃ flat : Option (List Scalar),
      (MultiZSet env c setName ord).calls = [⟨"multi_zset", [Arg.str setName, Arg.anys flat]⟩]
      ∧ goLen flat = 2 * kvs.length
      ∧ (∀ i, i < kvs.length → ∃ k v, (flat.getD [])[2 * i]? = some (Scalar.str k)
          ∧ (flat.getD [])[2 * i + 1]? = some (Scalar.int v) ∧ mapGet kvs k = some v)
      ∧ (∀ k, k ∈ kvs.map Prod.fst → (flat.getD []).count (Scalar.str k) = 1) := by
  refine ⟨flattenKvs ord, ?_, ?_, ?_, ?_⟩
  · have h := run_calls env c (Op.MultiZSet setName ord)
    simpa only [Op.run, calls_map, Op.request, Option.toList] using h
  · simp only [goLen, flattenKvs_getD, interleave_length, hord.length_eq]
  · intro i hi
    rw [flattenKvs_getD]
    obtain ⟨kv, hmem, h0, h1⟩ := interleave_even ord i (by rw [hord.length_eq]; exact hi)
    exact ⟨kv.1, kv.2, h0, h1, mapGet_of_mem kvs hmap kv.1 kv.2 (hord.subset hmem)⟩
  · intro k hk
    rw [flattenKvs_getD, interleave_count, (hord.map Prod.fst).count_eq]
    exact List.count_eq_one_of_mem hmap hk

/-- C6, witness: the map with the entries `a: 1` and `b: 2`, visited `b` first. -/
theorem C6_MultiZSet_flattening_witness :
    ∃ flat : Option (List Scalar),
      (MultiZSet sampleEnv (replying ["ok"]) "s" [("b", 2), ("a", 1)]).calls
        = [⟨"multi_zset", [Arg.str "s", Arg.anys flat]⟩]
      ∧ goLen flat = 2 * [("a", (1 : Int)), ("b", 2)].length
      ∧ (∀ i, i < [("a", (1 : Int)), ("b", 2)].length → ∃ k v,
          (flat.getD [])[2 * i]? = some (Scalar.str k)
          ∧ (flat.getD [])[2 * i + 1]? = some (Scalar.int v)
          ∧ mapGet [("a", 1), ("b", 2)] k = some v)
      ∧ (∀ k, k ∈ [("a", (1 : Int)), ("b", 2)].map Prod.fst → (flat.getD []).count (Scalar.str k) = 1) :=
  C6_MultiZSet_flattening sampleEnv (replying ["ok"]) "s" [("a", 1), ("b", 2)] [("b", 2), ("a", 1)]
    (by decide) (by decide)

/-! ## The status guard (C8, C9) -/

theorem forLoop_ne_panic {σ : Type} (cond : Nat → Bool) (post : Nat → Nat)
    (body : Nat → σ → Option σ) (hbody : ∀ i st, cond i = true → body i st ≠ none) :
    ∀ (fuel i : Nat) (st : σ), forLoop cond post body fuel i st ≠ Loop.panic := by
  intro fuel
  induction fuel with
  | zero =>
    intro i st
    unfold forLoop
    split <;> simp
  | succ n ih =>
    intro i st
    unfold forLoop
    split
    · rename_i hc
      split
      · rename_i hb
        exact absurd hb (hbody i st hc)
      · exact ih _ _
    · simp

theorem getElem?_ne_none {α : Type} (l : List α) (i : Nat) (h : i < l.length) :
    ∃ x, l[i]? = some x := ⟨l[i], List.getElem?_eq_getElem h⟩

theorem scanBody_ne_none (resp : List String) (i : Nat) (st : List String × List Int)
    (h : i + 1 < resp.length) : scanBody resp i st ≠ none := by
  obtain ⟨k, hk⟩ := getElem?_ne_none resp i (by omega)
  obtain ⟨t, ht⟩ := getElem?_ne_none resp 1 (by omega)
  simp [scanBody, hk, ht]

theorem multiZGetBody_ne_none (resp : List String) (i : Nat) (val : List (String × Int))
    (h : i + 1 < resp.length) : multiZGetBody resp i val ≠ none := by
  obtain ⟨k, hk⟩ := getElem?_ne_none resp i (by omega)
  obtain ⟨t, ht⟩ := getElem?_ne_none resp (i + 1) h
  simp [multiZGetBody, hk, ht]

theorem mapBody_ne_none (env : Env) (resp : List String) (i : Nat) (val : List (String × Int))
    (h : i + 1 < resp.length) : mapBody env resp i val ≠ none := by
  obtain ⟨k, hk⟩ := getElem?_ne_none resp i (by omega)
  obtain ⟨t, ht⟩ := getElem?_ne_none resp (i + 1) h
  simp [mapBody, hk, ht]

theorem sliceBody_ne_none (env : Env) (resp : List String) (i : Nat)
    (st : List String × List Int) (h : i + 1 < resp.length) : sliceBody env resp i st ≠ none := by
  obtain ⟨k, hk⟩ := getElem?_ne_none resp i (by omega)
  obtain ⟨t, ht⟩ := getElem?_ne_none resp (i + 1) h
  simp [sliceBody, hk, ht]

theorem keysBody_ne_none (resp : List String) (i : Nat) (keys : List String)
    (h : i < resp.length) : keysBody resp i keys ≠ none := by
  obtain ⟨k, hk⟩ := getElem?_ne_none resp i h
  simp [keysBody, hk]

/-- The loops of the pair decoders never index past the reply. -/
theorem loopA_ne_panic {σ : Type} (resp : List String) (body : Nat → σ → Option σ)
    (hbody : ∀ i st, i + 1 < resp.length → body i st ≠ none) (fuel i : Nat) (st : σ) :
    forLoop (fun i => decide (i < resp.length - 1)) (fun i => i + 2) body fuel i st
      ≠ Loop.panic := by
  apply forLoop_ne_panic
  intro j st' hc
  simp at hc
  exact hbody j st' (by omega)

theorem loopB_ne_panic {σ : Type} (resp : List String) (body : Nat → σ → Option σ)
    (hbody : ∀ i st, i + 1 < resp.length → body i st ≠ none) (fuel i : Nat) (st : σ) :
    forLoop (fun i => decide (i < resp.length) && decide (i + 1 < resp.length)) (fun i => i + 2)
      body fuel i st ≠ Loop.panic := by
  apply forLoop_ne_panic
  intro j st' hc
  simp at hc
  exact hbody j st' (by omega)

theorem loopC_ne_panic (resp : List String) (fuel i : Nat) (st : List String) :
    forLoop (fun i => decide (i < resp.length)) (fun i => i + 1) (keysBody resp) fuel i st
      ≠ Loop.panic := by
  apply forLoop_ne_panic
  intro j st' hc
  simp at hc
  exact keysBody_ne_none resp j st' hc

theorem head_ok_pos (resp : List String) (hok : resp[0]? = some "ok") : 0 < resp.length := by
  cases resp with
  | nil => simp at hok
  | cons a l => simp

theorem run_guard_fails (env : Env) (c : DbClient) (op : Op) (call : Call)
    (resp : List String) (hcall : call ∈ (Op.run env c op).calls)
    (hdo : c.Do call.cmd call.args = (resp, none))
    (hlen : Op.lenGuard op resp.length = false) :
    Op.run env c op
      = Outcome.ret (Op.placeholder op) (env.handError resp (Op.handArgs op)) [call] := by
  rw [run_calls] at hcall
  cases op <;>
  simp only [Op.request] at hcall <;>
  (try split at hcall) <;>
  simp only [Option.toList, List.mem_singleton, List.not_mem_nil] at hcall <;>
  subst hcall <;>
  simp only [] at hdo <;>
  simp only [Op.run, ZSet, ZGet, ZDel, ZExists, ZCount, ZClear, ZScan, ZrScan, MultiZSet,
    MultiZGet, MultiZGetSlice, MultiZGetArray, MultiZGetSliceArray, MultiZDel, ZIncR, ZList, ZSize,
    ZKeys, ZSum, ZAvg, ZRank, ZRRank, ZRange, ZRangeSlice, ZRRange, ZRRangeSlice, ZRemRangeByRank,
    ZRemRangeByScore, ZPopFront, ZPopBack, Op.lenGuard] at hlen ⊢ <;>
  simp at hlen <;>
  (try have hn : ¬ (1 < resp.length) := by omega) <;>
  simp [hdo, isOk, hlen, Outcome.map, Op.placeholder, Op.handArgs, *]

theorem mapBody_congr (env' env : Env) (h : env'.toInt64 = env.toInt64) :
    mapBody env' = mapBody env := by
  funext resp i val
  simp only [mapBody, h]

theorem sliceBody_congr (env' env : Env) (h : env'.toInt64 = env.toInt64) :
    sliceBody env' = sliceBody env := by
  funext resp i st
  simp only [sliceBody, h]

theorem run_ok_handError_unused (env env' : Env) (c : DbClient) (op : Op) (call : Call)
    (resp : List String) (hcall : call ∈ (Op.run env c op).calls)
    (hdo : c.Do call.cmd call.args = (resp, none)) (hok : resp[0]? = some "ok")
    (hlen : Op.lenGuard op resp.length = true) (henv : env'.toInt64 = env.toInt64) :
    Op.run env' c op = Op.run env c op := by
  rw [run_calls] at hcall
  have hpos := head_ok_pos resp hok
  cases op <;>
  simp only [Op.request] at hcall <;>
  (try split at hcall) <;>
  simp only [Option.toList, List.mem_singleton, List.not_mem_nil] at hcall <;>
  subst hcall <;>
  simp only [] at hdo <;>
  simp only [Op.run, ZSet, ZGet, ZDel, ZExists, ZCount, ZClear, ZScan, ZrScan, MultiZSet,
    MultiZGet, MultiZGetSlice, MultiZGetArray, MultiZGetSliceArray, MultiZDel, ZIncR, ZList, ZSize,
    ZKeys, ZSum, ZAvg, ZRank, ZRRank, ZRange, ZRangeSlice, ZRRange, ZRRangeSlice, ZRemRangeByRank,
    ZRemRangeByScore, ZPopFront, ZPopBack, Op.lenGuard] at hlen ⊢ <;>
  simp at hlen <;>
  (try rename_i hkey) <;>
  (try simp only [if_neg hkey]) <;>
  simp only [hdo, isOk, hok, hpos, hlen, Outcome.map, decide_True, Bool.and_self, if_true, and_self,
    gt_iff_lt, henv, mapBody_congr env' env henv, sliceBody_congr env' env henv]

/-- C8, counterexample: `ZGet` on `["ok", "5", "x"]` and `ZIncR` on `["ok"]`
return 0 and the error of `handError`, and the outcome of `ZGet` changes with
`handError`. -/
theorem C8_counterexample :
    ZGet sampleEnv (replying ["ok", "5", "x"]) "s" "k"
        = Outcome.ret 0 (some (GoError.other "ok" "")) [⟨"zget", [Arg.str "s", Arg.str "k"]⟩]
    ∧ sampleEnv.handError ["ok", "5", "x"] [Arg.str "s", Arg.str "k"]
        = some (GoError.other "ok" "")
    ∧ ZIncR sampleEnv (replying ["ok"]) "s" "k" 1
        = Outcome.ret 0 (some (GoError.other "ok" "")) [⟨"zincr", [Arg.str "s", Arg.str "k", Arg.int 1]⟩]
    ∧ ZGet quietEnv (replying ["ok", "5", "x"]) "s" "k"
        ≠ ZGet sampleEnv (replying ["ok", "5", "x"]) "s" "k" := by
  decide


/-! ## Transport errors (C10) and the non-ok reply (C9) -/

theorem contains_suffix (pre e : String) : Contains (pre ++ e) e :=
  ⟨pre, "", by simp⟩

/-- C9: for every operation that reaches the Transport and every reply that
is empty or whose first token is not `ok`, whatever the payload tokens, the
operation returns its placeholder value (`nil`, `false`, `0`, and `-1` for
`ZCount`) and, as its error, exactly `handError(resp, ...)`. -/
theorem C9_non_ok_reply_goes_to_handError (env : Env) (c : DbClient) (op : Op) (call : Call)
    (resp : List String) (hcall : call ∈ (Op.run env c op).calls)
    (hdo : c.Do call.cmd call.args = (resp, none))
    (hnok : resp[0]? ≠ some "ok") :
    Op.run env c op
      = Outcome.ret (Op.placeholder op) (env.handError resp (Op.handArgs op)) [call] := by
  rw [run_calls] at hcall
  cases op <;>
  simp only [Op.request] at hcall <;>
  (try split at hcall) <;>
  simp only [Option.toList, List.mem_singleton, List.not_mem_nil] at hcall <;>
  subst hcall <;>
  simp only [Op.run, ZSet, ZGet, ZDel, ZExists, ZCount, ZClear, ZScan, ZrScan, MultiZSet,
    MultiZGet, MultiZGetSlice, MultiZGetArray, MultiZGetSliceArray, MultiZDel, ZIncR, ZList, ZSize,
    ZKeys, ZSum, ZAvg, ZRank, ZRRank, ZRange, ZRangeSlice, ZRRange, ZRRangeSlice, ZRemRangeByRank,
    ZRemRangeByScore, ZPopFront, ZPopBack] <;>
  simp only [] at hdo <;>
  simp [hdo, isOk, hnok, Outcome.map, Op.placeholder, Op.handArgs, *]

/-- C9, witness: `ZCount` on the reply `["not_found"]` returns -1 and the
error of `handError`. -/
theorem C9_non_ok_reply_goes_to_handError_witness :
    ["not_found"][0]? ≠ some "ok"
    ∧ Op.run sampleEnv (replying ["not_found"]) (Op.ZCount "s" (Arg.int 1) (Arg.str ""))
      = Outcome.ret (Value.int (-1)) (sampleEnv.handError ["not_found"] [Arg.str "s"])
          [⟨"zcount", [Arg.str "s", Arg.int 1, Arg.str ""]⟩] :=
  ⟨by decide,
    C9_non_ok_reply_goes_to_handError sampleEnv (replying ["not_found"])
      (Op.ZCount "s" (Arg.int 1) (Arg.str "")) ⟨"zcount", [Arg.str "s", Arg.int 1, Arg.str ""]⟩
      ["not_found"] (by decide) rfl (by decide)⟩

theorem run_transport_error (env : Env) (c : DbClient) (op : Op) (call : Call)
    (resp : List String) (e : String) (hcall : call ∈ (Op.run env c op).calls)
    (hdo : c.Do call.cmd call.args = (resp, some e)) :
    ∃ msg, Contains msg e
      ∧ Op.run env c op = Outcome.ret (Op.placeholder op) (some (GoError.errorf msg)) [call] := by
  rw [run_calls] at hcall
  cases op <;>
  simp only [Op.request] at hcall <;>
  (try split at hcall) <;>
  simp only [Option.toList, List.mem_singleton, List.not_mem_nil] at hcall <;>
  subst hcall <;>
  simp only [] at hdo <;>
  (try rename_i hkey) <;>
  simp only [Op.run, ZSet, ZGet, ZDel, ZExists, ZCount, ZClear, ZScan, ZrScan, MultiZSet,
    MultiZGet, MultiZGetSlice, MultiZGetArray, MultiZGetSliceArray, MultiZDel, ZIncR, ZList, ZSize,
    ZKeys, ZSum, ZAvg, ZRank, ZRRank, ZRange, ZRangeSlice, ZRRange, ZRRangeSlice, ZRemRangeByRank,
    ZRemRangeByScore, ZPopFront, ZPopBack, hdo, Outcome.map, Op.placeholder] <;>
  (try simp only [if_neg hkey]) <;>
  exact ⟨_, contains_suffix _ e, rfl⟩

theorem run_transport_error_congr (env env' : Env) (c c' : DbClient) (op : Op) (call : Call)
    (resp resp' : List String) (e : String) (hcall : call ∈ (Op.run env c op).calls)
    (hdo : c.Do call.cmd call.args = (resp, some e))
    (hdo' : c'.Do call.cmd call.args = (resp', some e)) (hs : env'.sprint = env.sprint) :
    Op.run env' c' op = Op.run env c op := by
  rw [run_calls] at hcall
  cases op <;>
  simp only [Op.request] at hcall <;>
  (try split at hcall) <;>
  simp only [Option.toList, List.mem_singleton, List.not_mem_nil] at hcall <;>
  subst hcall <;>
  simp only [] at hdo hdo' <;>
  (try rename_i hkey) <;>
  simp only [Op.run, ZSet, ZGet, ZDel, ZExists, ZCount, ZClear, ZScan, ZrScan, MultiZSet,
    MultiZGet, MultiZGetSlice, MultiZGetArray, MultiZGetSliceArray, MultiZDel, ZIncR, ZList, ZSize,
    ZKeys, ZSum, ZAvg, ZRank, ZRRank, ZRange, ZRangeSlice, ZRRange, ZRRangeSlice, ZRemRangeByRank,
    ZRemRangeByScore, ZPopFront, ZPopBack, hdo, hdo', hs, Outcome.map]

/-- C10: for every operation, if its `Do` call returns the transport error
`e`, the operation returns its placeholder value and a non-nil error made by
`fmt.Errorf` whose message contains `e`, having made that one call only; the
outcome is the same whatever tokens came with the error and whatever
`handError` is. -/
theorem C10_transport_error_surfaced (env : Env) (c : DbClient) (op : Op) (call : Call)
    (resp : List String) (e : String) (hcall : call ∈ (Op.run env c op).calls)
    (hdo : c.Do call.cmd call.args = (resp, some e)) :
    (∃ msg, Contains msg e
      ∧ Op.run env c op = Outcome.ret (Op.placeholder op) (some (GoError.errorf msg)) [call])
    ∧ ∀ (env' : Env) (c' : DbClient) (resp' : List String), env'.sprint = env.sprint →
        c'.Do call.cmd call.args = (resp', some e) → Op.run env' c' op = Op.run env c op :=
  ⟨run_transport_error env c op call resp e hcall hdo,
    fun env' c' resp' hs hdo' =>
      run_transport_error_congr env env' c c' op call resp resp' e hcall hdo hdo' hs⟩

/-- C10, witness: `ZClear` under a `Do` failing with `EOF`. -/
theorem C10_transport_error_surfaced_witness :
    (∃ msg, Contains msg "EOF"
      ∧ Op.run sampleEnv (failing ["ok", "7"] "EOF") (Op.ZClear "s")
          = Outcome.ret Value.unit (some (GoError.errorf msg)) [⟨"zclear", [Arg.str "s"]⟩])
    ∧ Op.run sampleEnv (failing ["ok", "7"] "EOF") (Op.ZClear "s")
        = Outcome.ret Value.unit (some (GoError.errorf "EOF ZClear s error: EOF"))
            [⟨"zclear", [Arg.str "s"]⟩] :=
  ⟨(C10_transport_error_surfaced sampleEnv (failing ["ok", "7"] "EOF") (Op.ZClear "s")
      ⟨"zclear", [Arg.str "s"]⟩ ["ok", "7"] "EOF" (by decide) rfl).1, by decide⟩

/-! ## What the decoders return on an `ok` reply -/

theorem isOk_cons (payload : List String) : isOk ("ok" :: payload) = true := by
  simp [isOk]

theorem isOk_iff (resp : List String) : isOk resp = true ↔ ∃ payload, resp = "ok" :: payload := by
  constructor
  · intro h
    cases resp with
    | nil => simp [isOk] at h
    | cons a l =>
      simp [isOk] at h
      exact ⟨l, by rw [h]⟩
  · rintro ⟨payload, rfl⟩
    exact isOk_cons payload

theorem multiZGetLoop_spec (status : String) (payload : List String) :
    forLoop (fun i => decide (i + 1 < (status :: payload).length)) (fun i => i + 2)
        (multiZGetBody (status :: payload)) (status :: payload).length 1 []
      = Loop.done (decodeMap (fun t => (ParseInt t).1) payload) := by
  rw [pairLoop_spec (status :: payload) (multiZGetBody (status :: payload))
    (fun m k t => mapSet m k (ParseInt t).1)]
  · simp only [List.drop_succ_cons, List.drop_zero, decodeMap]
  · intro i st k t hk ht
    simp [multiZGetBody, hk, ht]
  · omega

theorem mapLoop_spec (env : Env) (status : String) (payload : List String) :
    forLoop (fun i => decide (i + 1 < (status :: payload).length)) (fun i => i + 2)
        (mapBody env (status :: payload)) (status :: payload).length 1 []
      = Loop.done (decodeMap env.toInt64 payload) := by
  rw [pairLoop_spec (status :: payload) (mapBody env (status :: payload))
    (fun m k t => mapSet m k (env.toInt64 t))]
  · simp only [List.drop_succ_cons, List.drop_zero, decodeMap]
  · intro i st k t hk ht
    simp [mapBody, hk, ht]
  · omega

theorem sliceLoop_spec (env : Env) (status : String) (payload : List String)
    (st : List String × List Int) :
    forLoop (fun i => decide (i + 1 < (status :: payload).length)) (fun i => i + 2)
        (sliceBody env (status :: payload)) (status :: payload).length 1 st
      = Loop.done (st.1 ++ pairKeys payload, st.2 ++ pairScores env.toInt64 payload) := by
  rw [pairLoop_spec (status :: payload) (sliceBody env (status :: payload))
    (fun st k t => (st.1 ++ [k], st.2 ++ [env.toInt64 t]))]
  · simp only [List.drop_succ_cons, List.drop_zero]
    rw [foldPairs_slices env.toInt64]
  · intro i st k t hk ht
    simp [sliceBody, hk, ht]
  · omega

theorem keysLoop_spec (resp : List String) :
    ∀ (fuel i : Nat) (st : List String), resp.length ≤ fuel + i →
      forLoop (fun i => decide (i < resp.length)) (fun i => i + 1) (keysBody resp) fuel i st
        = Loop.done (st ++ resp.drop i) := by
  intro fuel
  induction fuel with
  | zero =>
    intro i st hb
    have hd : resp.drop i = [] := List.drop_eq_nil_of_le (by omega)
    have hc : ¬ (i < resp.length) := by omega
    simp [forLoop, hc, hd]
  | succ n ih =>
    intro i st hb
    by_cases hc : i < resp.length
    · have hk : resp[i]? = some resp[i] := List.getElem?_eq_getElem hc
      simp only [forLoop, hc, decide_True, if_true, keysBody, hk]
      rw [ih (i + 1) _ (by omega), List.drop_eq_getElem_cons hc]
      simp
    · have hd : resp.drop i = [] := List.drop_eq_nil_of_le (by omega)
      simp [forLoop, hc, hd]

section ok
variable (env : Env) (c : DbClient) (payload : List String)

theorem ZScan_ok (setName keyStart : String) (scoreStart scoreEnd : Arg) (limit : Int)
    (hdo : c.Do "zscan" [Arg.str setName, Arg.str keyStart, scoreStart, scoreEnd, Arg.int limit]
      = ("ok" :: payload, none)) :
    ZScan env c setName keyStart scoreStart scoreEnd limit
      = Outcome.ret (some (pairKeys payload),
          some (List.replicate (pairKeys payload).length (ParseInt (payload.headD "")).1)) none
          [⟨"zscan", [Arg.str setName, Arg.str keyStart, scoreStart, scoreEnd, Arg.int limit]⟩] := by
  simp only [ZScan, hdo]
  rw [scanLoop_spec]
  simp [isOk]

theorem ZrScan_ok (setName keyStart : String) (scoreStart scoreEnd : Arg) (limit : Int)
    (hdo : c.Do "zrscan" [Arg.str setName, Arg.str keyStart, scoreStart, scoreEnd, Arg.int limit]
      = ("ok" :: payload, none)) :
    ZrScan env c setName keyStart scoreStart scoreEnd limit
      = Outcome.ret (some (pairKeys payload),
          some (List.replicate (pairKeys payload).length (ParseInt (payload.headD "")).1)) none
          [⟨"zrscan", [Arg.str setName, Arg.str keyStart, scoreStart, scoreEnd, Arg.int limit]⟩] := by
  simp only [ZrScan, hdo]
  rw [scanLoop_spec]
  simp [isOk]

theorem MultiZGet_ok (setName : String) (key : List String) (hkey : key ≠ [])
    (hdo : c.Do "multi_zget" [Arg.str setName, Arg.strs key] = ("ok" :: payload, none)) :
    MultiZGet env c setName key
      = Outcome.ret (some (decodeMap (fun t => (ParseInt t).1) payload)) none
          [⟨"multi_zget", [Arg.str setName, Arg.strs key]⟩] := by
  have hlen : ¬ key.length = 0 := fun h => hkey (List.length_eq_zero.mp h)
  simp only [MultiZGet, hlen, if_false, hdo]
  rw [condB_eq, multiZGetLoop_spec]
  simp [isOk]

theorem MultiZGetArray_ok (setName : String) (key : List String) (hkey : key ≠ [])
    (hdo : c.Do "multi_zget" [Arg.str setName, Arg.strs key] = ("ok" :: payload, none)) :
    MultiZGetArray env c setName key
      = Outcome.ret (some (decodeMap env.toInt64 payload)) none
          [⟨"multi_zget", [Arg.str setName, Arg.strs key]⟩] := by
  have hlen : ¬ key.length = 0 := fun h => hkey (List.length_eq_zero.mp h)
  simp only [MultiZGetArray, hlen, if_false, hdo]
  rw [condB_eq, mapLoop_spec]
  simp [isOk]

theorem MultiZGetSlice_ok (setName : String) (key : List String) (hkey : key ≠ [])
    (hdo : c.Do "multi_zget" [Arg.str setName, Arg.strs key] = ("ok" :: payload, none)) :
    MultiZGetSlice env c setName key
      = Outcome.ret
          (some (List.replicate (payload.length / 2) "" ++ pairKeys payload),
           some (List.replicate (payload.length / 2) 0 ++ pairScores env.toInt64 payload)) none
          [⟨"multi_zget", [Arg.str setName, Arg.strs key]⟩] := by
  have hlen : ¬ key.length = 0 := fun h => hkey (List.length_eq_zero.mp h)
  simp only [MultiZGetSlice, hlen, if_false, hdo]
  rw [condB_eq, sliceLoop_spec]
  simp [isOk]

theorem MultiZGetSliceArray_ok (setName : String) (key : List String) (hkey : key ≠ [])
    (hdo : c.Do "multi_zget" [Arg.str setName, Arg.strs key] = ("ok" :: payload, none)) :
    MultiZGetSliceArray env c setName key
      = Outcome.ret
          (some (List.replicate (payload.length / 2) "" ++ pairKeys payload),
           some (List.replicate (payload.length / 2) 0 ++ pairScores env.toInt64 payload)) none
          [⟨"multi_zget", [Arg.str setName, Arg.strs key]⟩] := by
  have hlen : ¬ key.length = 0 := fun h => hkey (List.length_eq_zero.mp h)
  simp only [MultiZGetSliceArray, hlen, if_false, hdo]
  rw [condB_eq, sliceLoop_spec]
  simp [isOk]

theorem ZRange_ok (setName : String) (offset limit : Int)
    (hdo : c.Do "zrange" [Arg.str setName, Arg.int offset, Arg.int limit]
      = ("ok" :: payload, none)) :
    ZRange env c setName offset limit
      = Outcome.ret (some (decodeMap env.toInt64 payload)) none
          [⟨"zrange", [Arg.str setName, Arg.int offset, Arg.int limit]⟩] := by
  simp only [ZRange, hdo]
  rw [condA_eq, mapLoop_spec]
  simp [isOk]

theorem ZRRange_ok (setName : String) (offset limit : Int)
    (hdo : c.Do "zrrange" [Arg.str setName, Arg.int offset, Arg.int limit]
      = ("ok" :: payload, none)) :
    ZRRange env c setName offset limit
      = Outcome.ret (some (decodeMap env.toInt64 payload)) none
          [⟨"zrrange", [Arg.str setName, Arg.int offset, Arg.int limit]⟩] := by
  simp only [ZRRange, hdo]
  rw [condA_eq, mapLoop_spec]
  simp [isOk]

theorem ZRangeSlice_ok (setName : String) (offset limit : Int)
    (hdo : c.Do "zrange" [Arg.str setName, Arg.int offset, Arg.int limit]
      = ("ok" :: payload, none)) :
    ZRangeSlice env c setName offset limit
      = Outcome.ret (some (pairKeys payload), some (pairScores env.toInt64 payload)) none
          [⟨"zrange", [Arg.str setName, Arg.int offset, Arg.int limit]⟩] := by
  simp only [ZRangeSlice, hdo]
  rw [condA_eq, sliceLoop_spec]
  simp [isOk]

theorem ZRRangeSlice_ok (setName : String) (offset limit : Int)
    (hdo : c.Do "zrrange" [Arg.str setName, Arg.int offset, Arg.int limit]
      = ("ok" :: payload, none)) :
    ZRRangeSlice env c setName offset limit
      = Outcome.ret (some (pairKeys payload), some (pairScores env.toInt64 payload)) none
          [⟨"zrrange", [Arg.str setName, Arg.int offset, Arg.int limit]⟩] := by
  simp only [ZRRangeSlice, hdo]
  rw [condA_eq, sliceLoop_spec]
  simp [isOk]

theorem ZPopFront_ok (setName : String) (limit : Int)
    (hdo : c.Do "zpop_front" [Arg.str setName, Arg.int limit] = ("ok" :: payload, none)) :
    ZPopFront env c setName limit
      = Outcome.ret (some (decodeMap env.toInt64 payload)) none
          [⟨"zpop_front", [Arg.str setName, Arg.int limit]⟩] := by
  simp only [ZPopFront, hdo]
  rw [condB_eq, mapLoop_spec]
  simp [isOk]

theorem ZPopBack_ok (setName : String) (limit : Int)
    (hdo : c.Do "zpop_back" [Arg.str setName, Arg.int limit] = ("ok" :: payload, none)) :
    ZPopBack env c setName limit
      = Outcome.ret (some (decodeMap env.toInt64 payload)) none
          [⟨"zpop_back", [Arg.str setName, Arg.int limit]⟩] := by
  simp only [ZPopBack, hdo]
  rw [condB_eq, mapLoop_spec]
  simp [isOk]

theorem ZKeys_ok (setName keyStart : String) (scoreStart scoreEnd : Arg) (limit : Int)
    (hdo : c.Do "zkeys" [Arg.str setName, Arg.str keyStart, scoreStart, scoreEnd, Arg.int limit]
      = ("ok" :: payload, none)) :
    ZKeys env c setName keyStart scoreStart scoreEnd limit
      = Outcome.ret (some payload) none
          [⟨"zkeys", [Arg.str setName, Arg.str keyStart, scoreStart, scoreEnd, Arg.int limit]⟩] := by
  simp only [ZKeys, hdo]
  rw [keysLoop_spec _ _ _ _ (by omega)]
  simp [isOk]

end ok

/-! ## The arguments of `handError` (C11) -/

theorem run_non_ok (env : Env) (c : DbClient) (op : Op) (call : Call)
    (resp : List String) (hcall : call ∈ (Op.run env c op).calls)
    (hdo : c.Do call.cmd call.args = (resp, none))
    (hnok : resp[0]? ≠ some "ok") :
    Op.run env c op
      = Outcome.ret (Op.placeholder op) (env.handError resp (Op.handArgs op)) [call] := by
  rw [run_calls] at hcall
  cases op <;>
  simp only [Op.request] at hcall <;>
  (try split at hcall) <;>
  simp only [Option.toList, List.mem_singleton, List.not_mem_nil] at hcall <;>
  subst hcall <;>
  simp only [Op.run, ZSet, ZGet, ZDel, ZExists, ZCount, ZClear, ZScan, ZrScan, MultiZSet,
    MultiZGet, MultiZGetSlice, MultiZGetArray, MultiZGetSliceArray, MultiZDel, ZIncR, ZList, ZSize,
    ZKeys, ZSum, ZAvg, ZRank, ZRRank, ZRange, ZRangeSlice, ZRRange, ZRRangeSlice, ZRemRangeByRank,
    ZRemRangeByScore, ZPopFront, ZPopBack] <;>
  simp only [] at hdo <;>
  simp [hdo, isOk, hnok, Outcome.map, Op.placeholder, Op.handArgs, *]

theorem handArgs_sublist (op : Op) : (Op.handArgs op).Sublist (Op.fullArgs op) := by
  cases op <;> simp [Op.handArgs, Op.fullArgs]

theorem handArgs_eq_full (op : Op) (h : Op.dropsArgs op = false) :
    Op.handArgs op = Op.fullArgs op := by
  cases op <;> simp [Op.handArgs, Op.fullArgs, Op.dropsArgs] at h ⊢

/-- C11, as amended: for every operation that reaches the Transport and every
reply that is empty or does not start with `ok`, the error is
`handError(resp, args...)` where `args` is a sub-list, in call order, of the
operation's arguments; it is the full argument list for every operation
other than `ZSet`, `ZCount`, `ZIncR`, `MultiZGet` and `MultiZGetArray`, and
for `ZSet` it is `setName, key`, without the score. -/
theorem C11_handError_args (env : Env) (c : DbClient) (op : Op) (call : Call)
    (resp : List String) (hcall : call ∈ (Op.run env c op).calls)
    (hdo : c.Do call.cmd call.args = (resp, none))
    (hnok : resp[0]? ≠ some "ok") :
    Op.run env c op
        = Outcome.ret (Op.placeholder op) (env.handError resp (Op.handArgs op)) [call]
    ∧ (Op.handArgs op).Sublist (Op.fullArgs op)
    ∧ (Op.dropsArgs op = false → Op.handArgs op = Op.fullArgs op)
    ∧ (∀ setName key score, op = Op.ZSet setName key score →
        Op.handArgs op = [Arg.str setName, Arg.str key]) := by
  refine ⟨run_non_ok env c op call resp hcall hdo hnok, handArgs_sublist op,
    handArgs_eq_full op, ?_⟩
  intro setName key score h
  subst h
  rfl

/-- C11, witness: `ZScan` on the reply `["fail"]` hands all five of its
arguments to `handError`. -/
theorem C11_handError_args_witness :
    Op.run argCountEnv (replying ["fail"]) (Op.ZScan "s" "a" (Arg.int 1) (Arg.str "") 10)
        = Outcome.ret (Value.pairs none none) (some (GoError.other "fail" "*****"))
            [⟨"zscan", [Arg.str "s", Arg.str "a", Arg.int 1, Arg.str "", Arg.int 10]⟩] :=
  (C11_handError_args argCountEnv (replying ["fail"])
    (Op.ZScan "s" "a" (Arg.int 1) (Arg.str "") 10)
    ⟨"zscan", [Arg.str "s", Arg.str "a", Arg.int 1, Arg.str "", Arg.int 10]⟩ ["fail"]
    (by decide) rfl (by decide)).1

/-- C11, counterexample: on the reply `["fail"]` `ZSet(s, k, 5)` hands two
arguments to `handError`, `s` and `k`, not its three. -/
theorem C11_counterexample :
    ZSet argCountEnv (replying ["fail"]) "s" "k" 5
        = Outcome.ret () (argCountEnv.handError ["fail"] [Arg.str "s", Arg.str "k"])
            [⟨"zset", [Arg.str "s", Arg.str "k", Arg.int 5]⟩]
    ∧ argCountEnv.handError ["fail"] [Arg.str "s", Arg.str "k"]
        = some (GoError.other "fail" "**")
    ∧ argCountEnv.handError ["fail"] [Arg.str "s", Arg.str "k", Arg.int 5]
        = some (GoError.other "fail" "***")
    ∧ Op.handArgs (Op.ZSet "s" "k" 5) ≠ Op.fullArgs (Op.ZSet "s" "k" 5) := by
  decide

/-! ## The empty key of `ZIncR` (C20) and the single-value decoders (C15) -/

/-- C20: for every set name and every amount, `ZIncR` with the empty key
returns 0 and a nil error without calling `Do`. -/
theorem C20_ZIncR_empty_key (env : Env) (c : DbClient) (setName : String) (num : Int) :
    ZIncR env c setName "" num = Outcome.ret 0 none [] := by
  rfl

/-- C15 (the code departs from it): on the one-token reply `["ok"]` the guard
`len(resp) > 0 && resp[0] == "ok"` of `ZSize`, `ZSum`, `ZAvg`, `ZRank` and
`ZRRank` passes and `resp[1]` is out of range: each of the five panics. -/
theorem C15_single_value_decoders_panic (env : Env) (setName key : String)
    (scoreStart scoreEnd : Arg) :
    ZSize env (replying ["ok"]) setName = Outcome.panic [⟨"zsize", [Arg.str setName]⟩]
    ∧ ZSum env (replying ["ok"]) setName scoreStart scoreEnd
        = Outcome.panic [⟨"zsum", [Arg.str setName, scoreStart, scoreEnd]⟩]
    ∧ ZAvg env (replying ["ok"]) setName scoreStart scoreEnd
        = Outcome.panic [⟨"zavg", [Arg.str setName, scoreStart, scoreEnd]⟩]
    ∧ ZRank env (replying ["ok"]) setName key
        = Outcome.panic [⟨"zrank", [Arg.str setName, Arg.str key]⟩]
    ∧ ZRRank env (replying ["ok"]) setName key
        = Outcome.panic [⟨"zrrank", [Arg.str setName, Arg.str key]⟩] := by
  refine ⟨rfl, rfl, rfl, rfl, rfl⟩


/-! ## Tokens that do not parse (C12, C13) -/

theorem ParseInt_cases (t : String) :
    (ParseInt t).2 = none
    ∨ ParseInt t = (0, some (GoError.numError t NumErr.ErrSyntax))
    ∨ ParseInt t = (2 ^ 63 - 1, some (GoError.numError t NumErr.ErrRange))
    ∨ ParseInt t = (-(2 ^ 63), some (GoError.numError t NumErr.ErrRange)) := by
  unfold ParseInt
  split
  · simp
  · simp only
    split
    · simp
    · split
      · simp
      · split
        · simp
        · simp

theorem ParseInt_error (t : String) (hbad : (ParseInt t).2 ≠ none) :
    ∃ kind, (ParseInt t).2 = some (GoError.numError t kind)
      ∧ (kind = NumErr.ErrSyntax → (ParseInt t).1 = 0)
      ∧ (kind = NumErr.ErrRange → (ParseInt t).1 = 2 ^ 63 - 1 ∨ (ParseInt t).1 = -(2 ^ 63)) := by
  rcases ParseInt_cases t with h | h | h | h
  · exact absurd h hbad
  · exact ⟨NumErr.ErrSyntax, by rw [h], fun _ => by rw [h], fun h' => (by cases h')⟩
  · exact ⟨NumErr.ErrRange, by rw [h], fun h' => (by cases h'), fun _ => Or.inl (by rw [h])⟩
  · exact ⟨NumErr.ErrRange, by rw [h], fun h' => (by cases h'), fun _ => Or.inr (by rw [h])⟩

/-- C12, as amended: for `ZGet` and `ZCount` and every reply `["ok", t]` in
which `t` does not parse as a base-10 signed 64-bit integer, the operation
returns what `strconv.ParseInt` returns, the parse error included: a non-nil
`*strconv.NumError` for `t`, with the value 0 on a syntax error and the
nearest bound of `int64` on a range error. -/
theorem C12_ZGet_surfaces_parse_error (env : Env) (c : DbClient) (setName key : String)
    (start «end» : Arg) (t : String)
    (hget : c.Do "zget" [Arg.str setName, Arg.str key] = (["ok", t], none))
    (hcount : c.Do "zcount" [Arg.str setName, start, «end»] = (["ok", t], none))
    (hbad : (ParseInt t).2 ≠ none) :
    ZGet env c setName key
        = Outcome.ret (ParseInt t).1 (ParseInt t).2 [⟨"zget", [Arg.str setName, Arg.str key]⟩]
    ∧ ZCount env c setName start «end»
        = Outcome.ret (ParseInt t).1 (ParseInt t).2 [⟨"zcount", [Arg.str setName, start, «end»]⟩]
    ∧ ∃ kind, (ParseInt t).2 = some (GoError.numError t kind)
      ∧ (kind = NumErr.ErrSyntax → (ParseInt t).1 = 0)
      ∧ (kind = NumErr.ErrRange → (ParseInt t).1 = 2 ^ 63 - 1 ∨ (ParseInt t).1 = -(2 ^ 63)) := by
  refine ⟨?_, ?_, ParseInt_error t hbad⟩
  · simp [ZGet, hget]
  · simp [ZCount, hcount]

/-- C12, witness: `ZGet` on the reply `["ok", "abc"]`. -/
theorem C12_ZGet_surfaces_parse_error_witness :
    ZGet sampleEnv (replying ["ok", "abc"]) "s" "k"
        = Outcome.ret (ParseInt "abc").1 (ParseInt "abc").2 [⟨"zget", [Arg.str "s", Arg.str "k"]⟩]
    ∧ ParseInt "abc" = (0, some (GoError.numError "abc" NumErr.ErrSyntax)) :=
  ⟨(C12_ZGet_surfaces_parse_error sampleEnv (replying ["ok", "abc"]) "s" "k" (Arg.str "")
      (Arg.str "") "abc" rfl rfl (by decide)).1, by decide⟩

/-- C12, counterexample: on `["ok", "abc"]` `ZGet` returns 0 with a non-nil
syntax error, on `["ok", ""]` `ZCount` does, and on `["ok",
"9223372036854775808"]` `ZGet` returns 9223372036854775807 with a non-nil
range error. -/
theorem C12_counterexample :
    ZGet sampleEnv (replying ["ok", "abc"]) "s" "k"
        = Outcome.ret 0 (some (GoError.numError "abc" NumErr.ErrSyntax))
            [⟨"zget", [Arg.str "s", Arg.str "k"]⟩]
    ∧ ZCount sampleEnv (replying ["ok", ""]) "s" (Arg.str "") (Arg.str "")
        = Outcome.ret 0 (some (GoError.numError "" NumErr.ErrSyntax))
            [⟨"zcount", [Arg.str "s", Arg.str "", Arg.str ""]⟩]
    ∧ ZGet sampleEnv (replying ["ok", "9223372036854775808"]) "s" "k"
        = Outcome.ret 9223372036854775807
            (some (GoError.numError "9223372036854775808" NumErr.ErrRange))
            [⟨"zget", [Arg.str "s", Arg.str "k"]⟩] := by
  decide

theorem foldPairs_append_even {σ : Type} (step : σ → String → String → σ) :
    ∀ (pre : List String) (st : σ) (l : List String), pre.length % 2 = 0 →
      foldPairs step st (pre ++ l) = foldPairs step (foldPairs step st pre) l
  | [], st, l, _ => by simp [foldPairs]
  | [_], st, l, h => by simp at h
  | k :: t :: rest, st, l, h => by
    have h' : rest.length % 2 = 0 := by simp at h; omega
    simp only [List.cons_append, foldPairs]
    exact foldPairs_append_even step rest (step st k t) l h'

theorem mapGet_mapSet_self (m : List (String × Int)) (k : String) (v : Int) :
    mapGet (mapSet m k v) k = some v := by
  induction m with
  | nil => simp [mapSet, mapGet]
  | cons kv rest ih =>
    obtain ⟨k', v'⟩ := kv
    by_cases h : k' = k
    · simp [mapSet, mapGet, h]
    · simp [mapSet, mapGet, h, ih]

theorem mapGet_mapSet_ne (m : List (String × Int)) (k k' : String) (v : Int) (hne : k' ≠ k) :
    mapGet (mapSet m k v) k' = mapGet m k' := by
  induction m with
  | nil => simp [mapSet, mapGet, Ne.symm hne]
  | cons kv rest ih =>
    obtain ⟨k0, v0⟩ := kv
    by_cases h : k0 = k
    · subst h
      simp [mapSet, mapGet, Ne.symm hne]
    · by_cases h2 : k0 = k'
      · subst h2
        simp [mapSet, mapGet, hne]
      · simp [mapSet, mapGet, h, h2, ih]

theorem mapGet_foldPairs_not_mem (f : String → Int) (k : String) :
    ∀ (l : List String) (m : List (String × Int)), k ∉ pairKeys l →
      mapGet (foldPairs (fun m k t => mapSet m k (f t)) m l) k = mapGet m k
  | [], m, _ => by simp [foldPairs]
  | [_], m, _ => by simp [foldPairs]
  | k0 :: t :: rest, m, h => by
    simp only [pairKeys, List.mem_cons, not_or] at h
    simp only [foldPairs]
    rw [mapGet_foldPairs_not_mem f k rest _ h.2, mapGet_mapSet_ne _ _ _ _ h.1]

theorem decodeMap_get (f : String → Int) (pre post : List String) (k t : String)
    (heven : pre.length % 2 = 0) (hlater : k ∉ pairKeys post) :
    mapGet (decodeMap f (pre ++ k :: t :: post)) k = some (f t) := by
  unfold decodeMap
  rw [foldPairs_append_even _ pre _ _ heven]
  simp only [foldPairs]
  rw [mapGet_foldPairs_not_mem f k post _ hlater, mapGet_mapSet_self]

/-- C13, as amended: for `MultiZGet` with a non-empty key list and every
reply `"ok", ..., k, t, ...` in which the score token `t` paired with `k`
does not parse and no later pair has the key `k`, the returned map holds for
`k` the value `strconv.ParseInt` returns next to its error: 0 on a syntax
error (non-numeric or empty text), and the nearest bound of `int64`
(9223372036854775807 or -9223372036854775808) on a range error. -/
theorem C13_MultiZGet_unparsed_score (env : Env) (c : DbClient) (setName : String)
    (key : List String) (pre post : List String) (k t : String) (hkey : key ≠ [])
    (hdo : c.Do "multi_zget" [Arg.str setName, Arg.strs key]
      = ("ok" :: (pre ++ k :: t :: post), none))
    (heven : pre.length % 2 = 0) (hlater : k ∉ pairKeys post)
    (hbad : (ParseInt t).2 ≠ none) :
    ∃ val, MultiZGet env c setName key
        = Outcome.ret (some val) none [⟨"multi_zget", [Arg.str setName, Arg.strs key]⟩]
      ∧ mapGet val k = some (ParseInt t).1
      ∧ ∃ kind, (ParseInt t).2 = some (GoError.numError t kind)
        ∧ (kind = NumErr.ErrSyntax → mapGet val k = some 0)
        ∧ (kind = NumErr.ErrRange →
            mapGet val k = some (2 ^ 63 - 1) ∨ mapGet val k = some (-(2 ^ 63))) := by
  refine ⟨_, MultiZGet_ok env c _ setName key hkey hdo, ?_, ?_⟩
  · exact decodeMap_get _ pre post k t heven hlater
  · obtain ⟨kind, hk, hs, hr⟩ := ParseInt_error t hbad
    have hget := decodeMap_get (fun t => (ParseInt t).1) pre post k t heven hlater
    refine ⟨kind, hk, fun h => ?_, fun h => ?_⟩
    · rw [hget]; simp only [hs h]
    · rw [hget]
      rcases hr h with h' | h'
      · exact Or.inl (by simp only [h'])
      · exact Or.inr (by simp only [h'])

/-- C13, witness: the reply `ok a 1 k x b 2`, where `x` is paired with `k`. -/
theorem C13_MultiZGet_unparsed_score_witness :
    ∃ val, MultiZGet sampleEnv (replying ["ok", "a", "1", "k", "x", "b", "2"]) "s" ["a", "k", "b"]
        = Outcome.ret (some val) none [⟨"multi_zget", [Arg.str "s", Arg.strs ["a", "k", "b"]]⟩]
      ∧ mapGet val "k" = some (ParseInt "x").1
      ∧ ∃ kind, (ParseInt "x").2 = some (GoError.numError "x" kind)
        ∧ (kind = NumErr.ErrSyntax → mapGet val "k" = some 0)
        ∧ (kind = NumErr.ErrRange →
            mapGet val "k" = some (2 ^ 63 - 1) ∨ mapGet val "k" = some (-(2 ^ 63))) :=
  C13_MultiZGet_unparsed_score sampleEnv (replying ["ok", "a", "1", "k", "x", "b", "2"]) "s"
    ["a", "k", "b"] ["a", "1"] ["b", "2"] "k" "x" (by decide) rfl (by decide) (by decide)
    (by decide)

/-- C13, counterexample: on the reply `["ok", "k", "9223372036854775808"]`
the map holds 9223372036854775807 for `k`, not 0. -/
theorem C13_counterexample :
    MultiZGet sampleEnv (replying ["ok", "k", "9223372036854775808"]) "s" ["k"]
        = Outcome.ret (some [("k", 9223372036854775807)]) none
            [⟨"multi_zget", [Arg.str "s", Arg.strs ["k"]]⟩]
    ∧ (ParseInt "9223372036854775808").2
        = some (GoError.numError "9223372036854775808" NumErr.ErrRange) := by
  decide


/-! ## The trailing unpaired token (C14) -/

theorem foldPairs_snoc_even {σ : Type} (step : σ → String → String → σ) (p : List String)
    (t : String) (st : σ) (heven : p.length % 2 = 0) :
    foldPairs step st (p ++ [t]) = foldPairs step st p := by
  rw [foldPairs_append_even step p st [t] heven]
  simp [foldPairs]

theorem pairKeys_snoc_even : ∀ (p : List String) (t : String), p.length % 2 = 0 →
    pairKeys (p ++ [t]) = pairKeys p
  | [], t, _ => by simp [pairKeys]
  | [_], t, h => by simp at h
  | k :: s :: rest, t, h => by
    have h' : rest.length % 2 = 0 := by simp at h; omega
    have ih := pairKeys_snoc_even rest t h'
    simp [pairKeys, ih]

theorem pairScores_snoc_even (f : String → Int) : ∀ (p : List String) (t : String),
    p.length % 2 = 0 → pairScores f (p ++ [t]) = pairScores f p
  | [], t, _ => by simp [pairScores]
  | [_], t, h => by simp at h
  | k :: s :: rest, t, h => by
    have h' : rest.length % 2 = 0 := by simp at h; omega
    have ih := pairScores_snoc_even f rest t h'
    simp [pairScores, ih]

theorem decodeMap_snoc_even (f : String → Int) (p : List String) (t : String)
    (heven : p.length % 2 = 0) : decodeMap f (p ++ [t]) = decodeMap f p := by
  unfold decodeMap
  exact foldPairs_snoc_even _ p t [] heven

theorem scanScores_snoc_even (p : List String) (t : String) (heven : p.length % 2 = 0) :
    List.replicate (pairKeys (p ++ [t])).length (ParseInt ((p ++ [t]).headD "")).1
      = List.replicate (pairKeys p).length (ParseInt (p.headD "")).1 := by
  rw [pairKeys_snoc_even p t heven]
  cases p with
  | nil => simp [pairKeys]
  | cons a l => simp

theorem half_snoc_even (p : List String) (t : String) (heven : p.length % 2 = 0) :
    (p ++ [t]).length / 2 = p.length / 2 := by
  simp only [List.length_append, List.length_singleton]
  omega

/-- C14: for every pair-decoding operation, every payload `p` of even length
and every token `t`, the outcome on the reply `["ok"] ++ p ++ [t]` is the
outcome on `["ok"] ++ p`, and that outcome is a return with a nil error: the
trailing token is ignored and no index past the end of the reply is read. -/
theorem C14_trailing_token_ignored (env : Env) (c c' : DbClient) (op : Op) (call : Call)
    (p : List String) (t : String) (hop : Op.decodesPairs op = true)
    (hcall : call ∈ (Op.run env c op).calls)
    (hdo : c.Do call.cmd call.args = ("ok" :: p, none))
    (hdo' : c'.Do call.cmd call.args = ("ok" :: (p ++ [t]), none))
    (heven : p.length % 2 = 0) :
    Op.run env c' op = Op.run env c op
    ∧ ∃ val, Op.run env c op = Outcome.ret val none [call] := by
  rw [run_calls] at hcall
  cases op <;> simp [Op.decodesPairs] at hop <;>
  simp only [Op.request] at hcall <;>
  (try split at hcall) <;>
  simp only [Option.toList, List.mem_singleton, List.not_mem_nil] at hcall <;>
  subst hcall <;>
  simp only [] at hdo hdo' <;>
  (try rename_i hlen) <;>
  (try have hkey := fun h => hlen (List.length_eq_zero.mpr h)) <;>
  simp only [Op.run]
  all_goals first
    | (rw [ZScan_ok env c p _ _ _ _ _ hdo, ZScan_ok env c' (p ++ [t]) _ _ _ _ _ hdo',
        scanScores_snoc_even p t heven, pairKeys_snoc_even p t heven]
       exact ⟨rfl, _, rfl⟩)
    | (rw [ZrScan_ok env c p _ _ _ _ _ hdo, ZrScan_ok env c' (p ++ [t]) _ _ _ _ _ hdo',
        scanScores_snoc_even p t heven, pairKeys_snoc_even p t heven]
       exact ⟨rfl, _, rfl⟩)
    | (rw [MultiZGet_ok env c p _ _ hkey hdo, MultiZGet_ok env c' (p ++ [t]) _ _ hkey hdo',
        decodeMap_snoc_even _ p t heven]
       exact ⟨rfl, _, rfl⟩)
    | (rw [MultiZGetArray_ok env c p _ _ hkey hdo,
        MultiZGetArray_ok env c' (p ++ [t]) _ _ hkey hdo', decodeMap_snoc_even _ p t heven]
       exact ⟨rfl, _, rfl⟩)
    | (rw [MultiZGetSlice_ok env c p _ _ hkey hdo,
        MultiZGetSlice_ok env c' (p ++ [t]) _ _ hkey hdo', half_snoc_even p t heven,
        pairKeys_snoc_even p t heven, pairScores_snoc_even _ p t heven]
       exact ⟨rfl, _, rfl⟩)
    | (rw [MultiZGetSliceArray_ok env c p _ _ hkey hdo,
        MultiZGetSliceArray_ok env c' (p ++ [t]) _ _ hkey hdo', half_snoc_even p t heven,
        pairKeys_snoc_even p t heven, pairScores_snoc_even _ p t heven]
       exact ⟨rfl, _, rfl⟩)
    | (rw [ZRange_ok env c p _ _ _ hdo, ZRange_ok env c' (p ++ [t]) _ _ _ hdo',
        decodeMap_snoc_even _ p t heven]
       exact ⟨rfl, _, rfl⟩)
    | (rw [ZRRange_ok env c p _ _ _ hdo, ZRRange_ok env c' (p ++ [t]) _ _ _ hdo',
        decodeMap_snoc_even _ p t heven]
       exact ⟨rfl, _, rfl⟩)
    | (rw [ZRangeSlice_ok env c p _ _ _ hdo, ZRangeSlice_ok env c' (p ++ [t]) _ _ _ hdo',
        pairKeys_snoc_even p t heven, pairScores_snoc_even _ p t heven]
       exact ⟨rfl, _, rfl⟩)
    | (rw [ZRRangeSlice_ok env c p _ _ _ hdo, ZRRangeSlice_ok env c' (p ++ [t]) _ _ _ hdo',
        pairKeys_snoc_even p t heven, pairScores_snoc_even _ p t heven]
       exact ⟨rfl, _, rfl⟩)
    | (rw [ZPopFront_ok env c p _ _ hdo, ZPopFront_ok env c' (p ++ [t]) _ _ hdo',
        decodeMap_snoc_even _ p t heven]
       exact ⟨rfl, _, rfl⟩)
    | (rw [ZPopBack_ok env c p _ _ hdo, ZPopBack_ok env c' (p ++ [t]) _ _ hdo',
        decodeMap_snoc_even _ p t heven]
       exact ⟨rfl, _, rfl⟩)

/-- C14, witness: `ZRangeSlice` on `ok a 1 b 2 x` and on `ok a 1 b 2`. -/
theorem C14_trailing_token_ignored_witness :
    Op.run sampleEnv (replying ["ok", "a", "1", "b", "2", "x"]) (Op.ZRangeSlice "s" 0 10)
        = Op.run sampleEnv (replying ["ok", "a", "1", "b", "2"]) (Op.ZRangeSlice "s" 0 10)
    ∧ Op.run sampleEnv (replying ["ok", "a", "1", "b", "2"]) (Op.ZRangeSlice "s" 0 10)
        = Outcome.ret (Value.pairs (some ["a", "b"]) (some [1, 2])) none
            [⟨"zrange", [Arg.str "s", Arg.int 0, Arg.int 10]⟩] :=
  ⟨(C14_trailing_token_ignored sampleEnv (replying ["ok", "a", "1", "b", "2"])
      (replying ["ok", "a", "1", "b", "2", "x"]) (Op.ZRangeSlice "s" 0 10)
      ⟨"zrange", [Arg.str "s", Arg.int 0, Arg.int 10]⟩ ["a", "1", "b", "2"] "x" rfl
      (by decide) rfl rfl (by decide)).1, by decide⟩


/-! ## The limit of the scans (C16) and the scores of `ZrScan` (C17) -/

/-- C16, as amended: `ZScan`, `ZrScan` and `ZKeys` send `limit` to the server
as the last argument of their call and return every item of the reply,
whatever `limit` is: on the reply `"ok" :: payload` the scans return one key
per pair of payload tokens (`|payload| / 2` keys) and `ZKeys` returns the
whole payload.  So `len(keys) <= limit` holds when the reply itself carries
at most `limit` items. -/
theorem C16_scans_return_whole_reply (env : Env) (c : DbClient) (setName keyStart : String)
    (scoreStart scoreEnd : Arg) (limit : Int) (payload : List String)
    (hscan : c.Do "zscan" [Arg.str setName, Arg.str keyStart, scoreStart, scoreEnd, Arg.int limit]
      = ("ok" :: payload, none))
    (hrscan : c.Do "zrscan" [Arg.str setName, Arg.str keyStart, scoreStart, scoreEnd, Arg.int limit]
      = ("ok" :: payload, none))
    (hkeys : c.Do "zkeys" [Arg.str setName, Arg.str keyStart, scoreStart, scoreEnd, Arg.int limit]
      = ("ok" :: payload, none)) :
    (∃ keys scores, ZScan env c setName keyStart scoreStart scoreEnd limit
        = Outcome.ret (some keys, some scores) none
            [⟨"zscan", [Arg.str setName, Arg.str keyStart, scoreStart, scoreEnd, Arg.int limit]⟩]
      ∧ keys = pairKeys payload ∧ keys.length = payload.length / 2)
    ∧ (∃ keys scores, ZrScan env c setName keyStart scoreStart scoreEnd limit
        = Outcome.ret (some keys, some scores) none
            [⟨"zrscan", [Arg.str setName, Arg.str keyStart, scoreStart, scoreEnd, Arg.int limit]⟩]
      ∧ keys = pairKeys payload ∧ keys.length = payload.length / 2)
    ∧ ZKeys env c setName keyStart scoreStart scoreEnd limit
        = Outcome.ret (some payload) none
            [⟨"zkeys", [Arg.str setName, Arg.str keyStart, scoreStart, scoreEnd, Arg.int limit]⟩] :=
  ⟨⟨_, _, ZScan_ok env c payload setName keyStart scoreStart scoreEnd limit hscan, rfl,
      pairKeys_length payload⟩,
    ⟨_, _, ZrScan_ok env c payload setName keyStart scoreStart scoreEnd limit hrscan, rfl,
      pairKeys_length payload⟩,
    ZKeys_ok env c payload setName keyStart scoreStart scoreEnd limit hkeys⟩

/-- C16, witness: `ZKeys` with limit 3 on a reply of three keys. -/
theorem C16_scans_return_whole_reply_witness :
    ZKeys sampleEnv (replying ["ok", "a", "b", "c"]) "s" "" (Arg.str "") (Arg.str "") 3
        = Outcome.ret (some ["a", "b", "c"]) none
            [⟨"zkeys", [Arg.str "s", Arg.str "", Arg.str "", Arg.str "", Arg.int 3]⟩] :=
  (C16_scans_return_whole_reply sampleEnv (replying ["ok", "a", "b", "c"]) "s" ""
    (Arg.str "") (Arg.str "") 3 ["a", "b", "c"] rfl rfl rfl).2.2

/-- C16, counterexample: with limit 1 `ZScan` and `ZrScan` return the two
keys of a reply of two pairs, and with limit 0 `ZKeys` returns the two keys
of its reply. -/
theorem C16_counterexample :
    ZScan sampleEnv (replying ["ok", "a", "1", "b", "2"]) "s" "" (Arg.str "") (Arg.str "") 1
        = Outcome.ret (some ["a", "b"], some [0, 0]) none
            [⟨"zscan", [Arg.str "s", Arg.str "", Arg.str "", Arg.str "", Arg.int 1]⟩]
    ∧ ZrScan sampleEnv (replying ["ok", "b", "2", "a", "1"]) "s" "" (Arg.str "") (Arg.str "") 1
        = Outcome.ret (some ["b", "a"], some [0, 0]) none
            [⟨"zrscan", [Arg.str "s", Arg.str "", Arg.str "", Arg.str "", Arg.int 1]⟩]
    ∧ ZKeys sampleEnv (replying ["ok", "a", "b"]) "s" "" (Arg.str "") (Arg.str "") 0
        = Outcome.ret (some ["a", "b"]) none
            [⟨"zkeys", [Arg.str "s", Arg.str "", Arg.str "", Arg.str "", Arg.int 0]⟩]
    ∧ ¬ (((["a", "b"] : List String).length : Int) ≤ 1) := by
  decide

theorem pairKeys_getElem? : ∀ (l : List String) (j : Nat), j < l.length / 2 →
    (pairKeys l)[j]? = l[2 * j]?
  | [], j, h => by simp at h
  | [_], j, h => by
    simp only [List.length_singleton] at h
    omega
  | k :: s :: rest, j, h => by
    cases j with
    | zero => simp [pairKeys]
    | succ n =>
      have h' : n < rest.length / 2 := by
        simp only [List.length_cons] at h
        omega
      have ih := pairKeys_getElem? rest n h'
      have e : 2 * (n + 1) = 2 * n + 1 + 1 := by omega
      rw [e]
      simpa [pairKeys] using ih

/-- C17: on every reply `ok, p1, p2, ..., pm` with `m >= 2`, `ZrScan` returns
one key per pair, the keys being `p1, p3, p5, ...` in reply order (the j-th
key is the payload token at position `2j`), and as many scores, every one
equal to the value `strconv.ParseInt` gives for the first payload token `p1`,
which is 0 when `p1` is not a numeral (a syntax error). -/
theorem C17_ZrScan_scores_from_first_token (env : Env) (c : DbClient) (setName keyStart : String)
    (scoreStart scoreEnd : Arg) (limit : Int) (p1 p2 : String) (rest : List String)
    (hdo : c.Do "zrscan" [Arg.str setName, Arg.str keyStart, scoreStart, scoreEnd, Arg.int limit]
      = ("ok" :: p1 :: p2 :: rest, none)) :
    ∃ keys scores, ZrScan env c setName keyStart scoreStart scoreEnd limit
        = Outcome.ret (some keys, some scores) none
            [⟨"zrscan", [Arg.str setName, Arg.str keyStart, scoreStart, scoreEnd, Arg.int limit]⟩]
      ∧ keys.length = (p1 :: p2 :: rest).length / 2
      ∧ scores.length = keys.length
      ∧ (∀ j, j < keys.length → keys[j]? = (p1 :: p2 :: rest)[2 * j]?)
      ∧ (∀ s ∈ scores, s = (ParseInt p1).1)
      ∧ ((ParseInt p1).2 = some (GoError.numError p1 NumErr.ErrSyntax) → ∀ s ∈ scores, s = 0) := by
  refine ⟨_, _, ZrScan_ok env c (p1 :: p2 :: rest) setName keyStart scoreStart scoreEnd limit hdo,
    pairKeys_length _, by simp, ?_, ?_, ?_⟩
  · intro j hj
    rw [pairKeys_length] at hj
    exact pairKeys_getElem? _ j hj
  · intro s hs
    exact (List.mem_replicate.mp hs).2
  · intro hsyn s hs
    have h0 : (ParseInt p1).1 = 0 := by
      rcases ParseInt_cases p1 with h | h | h | h
      · rw [h] at hsyn; cases hsyn
      · rw [h]
      · rw [h] at hsyn; cases hsyn
      · rw [h] at hsyn; cases hsyn
    rw [← h0]
    exact (List.mem_replicate.mp hs).2

/-- C17, witness: on `ok 7 10 c 20` the keys are `7, c` and both scores are 7. -/
theorem C17_ZrScan_scores_from_first_token_witness :
    ZrScan sampleEnv (replying ["ok", "7", "10", "c", "20"]) "s" "" (Arg.str "") (Arg.str "") 10
        = Outcome.ret (some ["7", "c"], some [7, 7]) none
            [⟨"zrscan", [Arg.str "s", Arg.str "", Arg.str "", Arg.str "", Arg.int 10]⟩]
    ∧ ∃ keys scores,
        ZrScan sampleEnv (replying ["ok", "7", "10", "c", "20"]) "s" "" (Arg.str "") (Arg.str "") 10
          = Outcome.ret (some keys, some scores) none
              [⟨"zrscan", [Arg.str "s", Arg.str "", Arg.str "", Arg.str "", Arg.int 10]⟩]
        ∧ keys.length = ["7", "10", "c", "20"].length / 2
        ∧ scores.length = keys.length
        ∧ (∀ j, j < keys.length → keys[j]? = ["7", "10", "c", "20"][2 * j]?)
        ∧ (∀ s ∈ scores, s = (ParseInt "7").1)
        ∧ ((ParseInt "7").2 = some (GoError.numError "7" NumErr.ErrSyntax) → ∀ s ∈ scores, s = 0) :=
  ⟨by decide,
    C17_ZrScan_scores_from_first_token sampleEnv (replying ["ok", "7", "10", "c", "20"]) "s" ""
      (Arg.str "") (Arg.str "") 10 "7" "10" ["c", "20"] rfl⟩


/-! ## Maps and slices of the offset ranges (C18, C19) -/

theorem foldPairs_mapSet_eq_foldl (f : String → Int) :
    ∀ (l : List String) (m : List (String × Int)),
      foldPairs (fun m k t => mapSet m k (f t)) m l
        = ((pairKeys l).zip (pairScores f l)).foldl (fun m kv => mapSet m kv.1 kv.2) m
  | [], m => by simp [foldPairs, pairKeys, pairScores]
  | [_], m => by simp [foldPairs, pairKeys, pairScores]
  | k :: t :: rest, m => by
    simp only [foldPairs, pairKeys, pairScores, List.zip_cons_cons, List.foldl_cons]
    exact foldPairs_mapSet_eq_foldl f rest _

theorem decodeMap_eq_insertPairs (f : String → Int) (l : List String) :
    decodeMap f l = insertPairs (pairKeys l) (pairScores f l) := by
  unfold decodeMap insertPairs
  exact foldPairs_mapSet_eq_foldl f l []

/-- C18: for every Transport (both functions issue the same call, so they
are given the same reply), `ZRange` and `ZRangeSlice` both return, the map of
`ZRange` is the map obtained by inserting the pairs `(key[i], val[i])` of
`ZRangeSlice` in order, a later duplicate key overwriting an earlier one (a
nil map and nil slices hold nothing), and the error of one is nil exactly
when the error of the other is; the same holds of `ZRRange` and
`ZRRangeSlice`. -/
theorem C18_ZRange_refines_ZRangeSlice (env : Env) (c : DbClient) (setName : String)
    (offset limit : Int) :
    (∃ m keys vals e1 e2 calls,
      ZRange env c setName offset limit = Outcome.ret m e1 calls
      ∧ ZRangeSlice env c setName offset limit = Outcome.ret (keys, vals) e2 calls
      ∧ m.getD [] = insertPairs (keys.getD []) (vals.getD [])
      ∧ (e1 = none ↔ e2 = none))
    ∧ (∃ m keys vals e1 e2 calls,
      ZRRange env c setName offset limit = Outcome.ret m e1 calls
      ∧ ZRRangeSlice env c setName offset limit = Outcome.ret (keys, vals) e2 calls
      ∧ m.getD [] = insertPairs (keys.getD []) (vals.getD [])
      ∧ (e1 = none ↔ e2 = none)) := by
  constructor
  · rcases h : c.Do "zrange" [Arg.str setName, Arg.int offset, Arg.int limit] with ⟨resp, _ | e⟩
    · by_cases hok : isOk resp = true
      · obtain ⟨payload, rfl⟩ := (isOk_iff resp).mp hok
        exact ⟨_, _, _, _, _, _, ZRange_ok env c payload setName offset limit h,
          ZRangeSlice_ok env c payload setName offset limit h,
          decodeMap_eq_insertPairs env.toInt64 payload, Iff.rfl⟩
      · refine ⟨none, none, none,
          env.handError resp [Arg.str setName, Arg.int offset, Arg.int limit],
          env.handError resp [Arg.str setName, Arg.int offset, Arg.int limit],
          [⟨"zrange", [Arg.str setName, Arg.int offset, Arg.int limit]⟩], ?_, ?_, rfl, Iff.rfl⟩
        · simp only [ZRange, h, hok]; rfl
        · simp only [ZRangeSlice, h, hok]; rfl
    · refine ⟨none, none, none, ?e1, ?e2,
        [⟨"zrange", [Arg.str setName, Arg.int offset, Arg.int limit]⟩], ?h1, ?h2, rfl, ?h4⟩
      case h1 => simp only [ZRange, h]; exact rfl
      case h2 => simp only [ZRangeSlice, h]; exact rfl
      case h4 => simp
  · rcases h : c.Do "zrrange" [Arg.str setName, Arg.int offset, Arg.int limit] with ⟨resp, _ | e⟩
    · by_cases hok : isOk resp = true
      · obtain ⟨payload, rfl⟩ := (isOk_iff resp).mp hok
        exact ⟨_, _, _, _, _, _, ZRRange_ok env c payload setName offset limit h,
          ZRRangeSlice_ok env c payload setName offset limit h,
          decodeMap_eq_insertPairs env.toInt64 payload, Iff.rfl⟩
      · refine ⟨none, none, none,
          env.handError resp [Arg.str setName, Arg.int offset, Arg.int limit],
          env.handError resp [Arg.str setName, Arg.int offset, Arg.int limit],
          [⟨"zrrange", [Arg.str setName, Arg.int offset, Arg.int limit]⟩], ?_, ?_, rfl, Iff.rfl⟩
        · simp only [ZRRange, h, hok]; rfl
        · simp only [ZRRangeSlice, h, hok]; rfl
    · refine ⟨none, none, none, ?r1, ?r2,
        [⟨"zrrange", [Arg.str setName, Arg.int offset, Arg.int limit]⟩], ?g1, ?g2, rfl, ?g4⟩
      case g1 => simp only [ZRRange, h]; exact rfl
      case g2 => simp only [ZRRangeSlice, h]; exact rfl
      case g4 => simp


theorem sameLen_exists (o : Outcome (Option (List String) × Option (List Int)))
    (h : o.sameLen) :
    ∃ keys scores err calls, o = Outcome.ret (keys, scores) err calls
      ∧ goLen keys = goLen scores := by
  cases o with
  | ret v e cs => exact ⟨v.1, v.2, e, cs, rfl, h⟩
  | panic cs => exact h.elim
  | stuck => exact h.elim

theorem ZScan_sameLen (env : Env) (c : DbClient) (setName keyStart : String)
    (scoreStart scoreEnd : Arg) (limit : Int) :
    (ZScan env c setName keyStart scoreStart scoreEnd limit).sameLen := by
  rcases h : c.Do "zscan" [Arg.str setName, Arg.str keyStart, scoreStart, scoreEnd, Arg.int limit]
    with ⟨resp, _ | e⟩
  · by_cases hok : isOk resp = true
    · obtain ⟨payload, rfl⟩ := (isOk_iff resp).mp hok
      rw [ZScan_ok env c payload _ _ _ _ _ h]
      simp [Outcome.sameLen, goLen]
    · simp [ZScan, h, hok, Outcome.sameLen, goLen]
  · simp [ZScan, h, Outcome.sameLen, goLen]

theorem ZrScan_sameLen (env : Env) (c : DbClient) (setName keyStart : String)
    (scoreStart scoreEnd : Arg) (limit : Int) :
    (ZrScan env c setName keyStart scoreStart scoreEnd limit).sameLen := by
  rcases h : c.Do "zrscan" [Arg.str setName, Arg.str keyStart, scoreStart, scoreEnd, Arg.int limit]
    with ⟨resp, _ | e⟩
  · by_cases hok : isOk resp = true
    · obtain ⟨payload, rfl⟩ := (isOk_iff resp).mp hok
      rw [ZrScan_ok env c payload _ _ _ _ _ h]
      simp [Outcome.sameLen, goLen]
    · simp [ZrScan, h, hok, Outcome.sameLen, goLen]
  · simp [ZrScan, h, Outcome.sameLen, goLen]

theorem MultiZGetSlice_sameLen (env : Env) (c : DbClient) (setName : String)
    (key : List String) : (MultiZGetSlice env c setName key).sameLen := by
  by_cases hkey : key = []
  · subst hkey
    simp [MultiZGetSlice, Outcome.sameLen, goLen]
  · have hlen : ¬ key.length = 0 := fun h => hkey (List.length_eq_zero.mp h)
    rcases h : c.Do "multi_zget" [Arg.str setName, Arg.strs key] with ⟨resp, _ | e⟩
    · by_cases hok : isOk resp = true
      · obtain ⟨payload, rfl⟩ := (isOk_iff resp).mp hok
        rw [MultiZGetSlice_ok env c payload _ _ hkey h]
        simp [Outcome.sameLen, goLen, pairKeys_length, pairScores_length]
      · simp [MultiZGetSlice, hlen, h, hok, Outcome.sameLen, goLen]
    · simp [MultiZGetSlice, hlen, h, Outcome.sameLen, goLen]

theorem MultiZGetSliceArray_sameLen (env : Env) (c : DbClient) (setName : String)
    (key : List String) : (MultiZGetSliceArray env c setName key).sameLen := by
  by_cases hkey : key = []
  · subst hkey
    simp [MultiZGetSliceArray, Outcome.sameLen, goLen]
  · have hlen : ¬ key.length = 0 := fun h => hkey (List.length_eq_zero.mp h)
    rcases h : c.Do "multi_zget" [Arg.str setName, Arg.strs key] with ⟨resp, _ | e⟩
    · by_cases hok : isOk resp = true
      · obtain ⟨payload, rfl⟩ := (isOk_iff resp).mp hok
        rw [MultiZGetSliceArray_ok env c payload _ _ hkey h]
        simp [Outcome.sameLen, goLen, pairKeys_length, pairScores_length]
      · simp [MultiZGetSliceArray, hlen, h, hok, Outcome.sameLen, goLen]
    · simp [MultiZGetSliceArray, hlen, h, Outcome.sameLen, goLen]

theorem ZRangeSlice_sameLen (env : Env) (c : DbClient) (setName : String) (offset limit : Int) :
    (ZRangeSlice env c setName offset limit).sameLen := by
  rcases h : c.Do "zrange" [Arg.str setName, Arg.int offset, Arg.int limit] with ⟨resp, _ | e⟩
  · by_cases hok : isOk resp = true
    · obtain ⟨payload, rfl⟩ := (isOk_iff resp).mp hok
      rw [ZRangeSlice_ok env c payload _ _ _ h]
      simp [Outcome.sameLen, goLen, pairKeys_length, pairScores_length]
    · simp [ZRangeSlice, h, hok, Outcome.sameLen, goLen]
  · simp [ZRangeSlice, h, Outcome.sameLen, goLen]

theorem ZRRangeSlice_sameLen (env : Env) (c : DbClient) (setName : String)
    (offset limit : Int) : (ZRRangeSlice env c setName offset limit).sameLen := by
  rcases h : c.Do "zrrange" [Arg.str setName, Arg.int offset, Arg.int limit] with ⟨resp, _ | e⟩
  · by_cases hok : isOk resp = true
    · obtain ⟨payload, rfl⟩ := (isOk_iff resp).mp hok
      rw [ZRRangeSlice_ok env c payload _ _ _ h]
      simp [Outcome.sameLen, goLen, pairKeys_length, pairScores_length]
    · simp [ZRRangeSlice, h, hok, Outcome.sameLen, goLen]
  · simp [ZRRangeSlice, h, Outcome.sameLen, goLen]

/-- C19: for every Transport and every reply, each of `ZScan`, `ZrScan`,
`MultiZGetSlice`, `MultiZGetSliceArray`, `ZRangeSlice` and `ZRRangeSlice`
returns, and the key slice and the score slice it returns have the same
length (two nil slices when it returns an error). -/
theorem C19_slices_same_length (env : Env) (c : DbClient) (setName keyStart : String)
    (scoreStart scoreEnd : Arg) (offset limit : Int) (key : List String) :
    (∃ keys scores err calls, ZScan env c setName keyStart scoreStart scoreEnd limit
        = Outcome.ret (keys, scores) err calls ∧ goLen keys = goLen scores)
    ∧ (∃ keys scores err calls, ZrScan env c setName keyStart scoreStart scoreEnd limit
        = Outcome.ret (keys, scores) err calls ∧ goLen keys = goLen scores)
    ∧ (∃ keys scores err calls, MultiZGetSlice env c setName key
        = Outcome.ret (keys, scores) err calls ∧ goLen keys = goLen scores)
    ∧ (∃ keys scores err calls, MultiZGetSliceArray env c setName key
        = Outcome.ret (keys, scores) err calls ∧ goLen keys = goLen scores)
    ∧ (∃ keys scores err calls, ZRangeSlice env c setName offset limit
        = Outcome.ret (keys, scores) err calls ∧ goLen keys = goLen scores)
    ∧ (∃ keys scores err calls, ZRRangeSlice env c setName offset limit
        = Outcome.ret (keys, scores) err calls ∧ goLen keys = goLen scores) :=
  ⟨sameLen_exists _ (ZScan_sameLen env c setName keyStart scoreStart scoreEnd limit),
    sameLen_exists _ (ZrScan_sameLen env c setName keyStart scoreStart scoreEnd limit),
    sameLen_exists _ (MultiZGetSlice_sameLen env c setName key),
    sameLen_exists _ (MultiZGetSliceArray_sameLen env c setName key),
    sameLen_exists _ (ZRangeSlice_sameLen env c setName offset limit),
    sameLen_exists _ (ZRRangeSlice_sameLen env c setName offset limit)⟩


/-! ## The decoded result of an `ok` reply (C8) -/

theorem ZList_ok (env : Env) (c : DbClient) (payload : List String) (nameStart nameEnd : String)
    (limit : Int)
    (hdo : c.Do "zlist" [Arg.str nameStart, Arg.str nameEnd, Arg.int limit]
      = ("ok" :: payload, none)) :
    ZList env c nameStart nameEnd limit
      = Outcome.ret (some payload) none
          [⟨"zlist", [Arg.str nameStart, Arg.str nameEnd, Arg.int limit]⟩] := by
  simp only [ZList, hdo]
  rw [keysLoop_spec _ _ _ _ (by omega)]
  simp [isOk]

theorem run_ok_decoded (env : Env) (c : DbClient) (op : Op) (call : Call)
    (resp : List String) (hcall : call ∈ (Op.run env c op).calls)
    (hdo : c.Do call.cmd call.args = (resp, none)) (hok : resp[0]? = some "ok")
    (hlen : Op.lenGuard op resp.length = true)
    (hpay : Op.readsPayload op = true → 1 < resp.length) :
    Op.run env c op
      = Outcome.ret (Op.decoded env op resp.tail) (Op.decodeErr op resp.tail) [call] := by
  obtain ⟨payload, rfl⟩ : ∃ payload, resp = "ok" :: payload := by
    cases resp with
    | nil => simp at hok
    | cons a l =>
      simp at hok
      exact ⟨l, by rw [hok]⟩
  rw [run_calls] at hcall
  cases op <;>
  simp only [Op.request] at hcall <;>
  (try split at hcall) <;>
  simp only [Option.toList, List.mem_singleton, List.not_mem_nil] at hcall <;>
  subst hcall <;>
  simp only [] at hdo <;>
  (try rename_i hklen) <;>
  (try have hkey := fun h => hklen (List.length_eq_zero.mpr h)) <;>
  simp only [Op.run, Op.decoded, Op.decodeErr, List.tail_cons, Op.lenGuard, Op.readsPayload]
    at hlen hpay ⊢
  all_goals first
    | (rw [ZScan_ok env c payload _ _ _ _ _ hdo]; rfl)
    | (rw [ZrScan_ok env c payload _ _ _ _ _ hdo]; rfl)
    | (rw [MultiZGet_ok env c payload _ _ hkey hdo]; rfl)
    | (rw [MultiZGetArray_ok env c payload _ _ hkey hdo]; rfl)
    | (rw [MultiZGetSlice_ok env c payload _ _ hkey hdo]; rfl)
    | (rw [MultiZGetSliceArray_ok env c payload _ _ hkey hdo]; rfl)
    | (rw [ZRange_ok env c payload _ _ _ hdo]; rfl)
    | (rw [ZRRange_ok env c payload _ _ _ hdo]; rfl)
    | (rw [ZRangeSlice_ok env c payload _ _ _ hdo]; rfl)
    | (rw [ZRRangeSlice_ok env c payload _ _ _ hdo]; rfl)
    | (rw [ZPopFront_ok env c payload _ _ hdo]; rfl)
    | (rw [ZPopBack_ok env c payload _ _ hdo]; rfl)
    | (rw [ZKeys_ok env c payload _ _ _ _ _ hdo]; rfl)
    | (rw [ZList_ok env c payload _ _ _ hdo]; rfl)
    | (simp [ZSet, ZDel, ZClear, MultiZSet, MultiZDel, ZRemRangeByRank, ZRemRangeByScore, hdo,
        isOk, Outcome.map, *]; done)
    | (rcases payload with _ | ⟨t, rest⟩ <;>
       simp [ZGet, ZExists, ZCount, ZIncR, ZSize, ZSum, ZAvg, ZRank, ZRRank, hdo, isOk,
         Outcome.map] at hlen hpay ⊢ <;>
       simp [*])


/-- C8, as amended: for every operation that reaches the Transport and every
reply whose first token is `ok`: when the reply passes the operation's
length guard (exactly two tokens for `ZGet`, `ZExists` and `ZCount`, more
than one for `ZIncR`; said of `ZSize`, `ZSum`, `ZAvg`, `ZRank` and `ZRRank`
for a reply with a payload token), the operation returns, having made the
one call, exactly its decoded result `Op.decoded` with the error
`Op.decodeErr`, which is nil except for the parse error of
`strconv.ParseInt` in `ZGet` and `ZCount`, and `handError` is not consulted
(the outcome is the same under any other `handError`); when the reply fails
the guard, the operation returns its placeholder and `handError(resp, ...)`. -/
theorem C8_ok_reply_within_guard (env : Env) (c : DbClient) (op : Op) (call : Call)
    (resp : List String) (hcall : call ∈ (Op.run env c op).calls)
    (hdo : c.Do call.cmd call.args = (resp, none)) (hok : resp[0]? = some "ok") :
    (Op.lenGuard op resp.length = true → (Op.readsPayload op = true → 1 < resp.length) →
      Op.run env c op
          = Outcome.ret (Op.decoded env op resp.tail) (Op.decodeErr op resp.tail) [call]
        ∧ ∀ env' : Env, env'.toInt64 = env.toInt64 → Op.run env' c op = Op.run env c op)
    ∧ (Op.lenGuard op resp.length = false →
        Op.run env c op
          = Outcome.ret (Op.placeholder op) (env.handError resp (Op.handArgs op)) [call]) :=
  ⟨fun hlen hpay =>
      ⟨run_ok_decoded env c op call resp hcall hdo hok hlen hpay,
        fun env' henv => run_ok_handError_unused env env' c op call resp hcall hdo hok hlen henv⟩,
    fun hlen => run_guard_fails env c op call resp hcall hdo hlen⟩

/-- C8, witness: `ZGet` on the reply `["ok", "5"]` returns 5 and a nil error,
`ZExists` on `["ok", "1"]` returns true. -/
theorem C8_ok_reply_within_guard_witness :
    (Op.run sampleEnv (replying ["ok", "5"]) (Op.ZGet "s" "k")
        = Outcome.ret (Value.int 5) none [⟨"zget", [Arg.str "s", Arg.str "k"]⟩]
      ∧ ∀ env' : Env, env'.toInt64 = sampleEnv.toInt64 →
          Op.run env' (replying ["ok", "5"]) (Op.ZGet "s" "k")
            = Op.run sampleEnv (replying ["ok", "5"]) (Op.ZGet "s" "k"))
    ∧ Op.run sampleEnv (replying ["ok", "1"]) (Op.ZExists "s" "k")
        = Outcome.ret (Value.bool true) none [⟨"zexists", [Arg.str "s", Arg.str "k"]⟩] :=
  ⟨(C8_ok_reply_within_guard sampleEnv (replying ["ok", "5"]) (Op.ZGet "s" "k")
      ⟨"zget", [Arg.str "s", Arg.str "k"]⟩ ["ok", "5"] (by decide) rfl rfl).1 rfl
      (by decide),
    ((C8_ok_reply_within_guard sampleEnv (replying ["ok", "1"]) (Op.ZExists "s" "k")
      ⟨"zexists", [Arg.str "s", Arg.str "k"]⟩ ["ok", "1"] (by decide) rfl rfl).1 rfl
      (by decide)).1⟩

end Gossdb
